import Mathlib

/-!
Verification of the 1auth SDK dialog/session protocol engine.

The definitions below are a shallow embedding of the TypeScript source:
  - `src/react.tsx`   — dialog host, ready handshake, signing waiter,
                        intent pipeline (`sendIntent`, `sendBatchIntent`)
  - `src/provider.ts` — EIP-1193 provider adapter (`wallet_sendCalls`)
  - the server-side intent signer (`createCanonicalMessage`, `signIntent`)

Event-listener callbacks are modelled as step functions from an explicit
state to a new state plus a list of externally observable effects
(messages posted back into the frame, cleanup invocations, promise
resolutions).  A run of a listener is the fold of its step function over
a list of delivered events.  Network interactions (fetch results) are
inputs to the model.  JavaScript string/number truthiness is modelled
explicitly where the source relies on it.
-/

namespace OneAuth

/-- JavaScript truthiness for an optional string: `undefined` and the
empty string are falsy. -/
def truthy : Option String → Bool
  | none => false
  | some s => !(s == "")

/-- JavaScript `a || d` for an optional string `a` and default `d`:
`undefined`, `null` and `""` fall through to the default. -/
def jsOr (v : Option String) (d : String) : String :=
  match v with
  | some s => if s = "" then d else s
  | none => d

/-- Generic run of an event-listener step function over a list of
delivered events, accumulating the emitted effects in delivery order. -/
def runSteps {σ α ε : Type} (step : σ → α → σ × List ε) : σ → List α → σ × List ε
  | s, [] => (s, [])
  | s, a :: rest =>
    let p := step s a
    let q := runSteps step p.1 rest
    (q.1, p.2 ++ q.2)

theorem runSteps_nil {σ α ε : Type} (step : σ → α → σ × List ε) (s : σ) :
    runSteps step s [] = (s, []) := rfl

theorem runSteps_cons {σ α ε : Type} (step : σ → α → σ × List ε) (s : σ)
    (a : α) (rest : List α) :
    runSteps step s (a :: rest) =
      ((runSteps step (step s a).1 rest).1,
        (step s a).2 ++ (runSteps step (step s a).1 rest).2) := rfl

theorem runSteps_append {σ α ε : Type} (step : σ → α → σ × List ε) (s : σ)
    (l₁ l₂ : List α) :
    runSteps step s (l₁ ++ l₂) =
      ((runSteps step (runSteps step s l₁).1 l₂).1,
        (runSteps step s l₁).2 ++ (runSteps step (runSteps step s l₁).1 l₂).2) := by
  induction l₁ generalizing s with
  | nil => simp [runSteps]
  | cons a rest ih =>
    simp only [List.cons_append, runSteps_cons, ih]
    simp [List.append_assoc]

/-- If an event is a no-op from every state (no state change, no
effects), then delivering it anywhere inside a run leaves the run's
final state and complete effect trace unchanged: the outcome is the
same as a run in which the event was never delivered. -/
theorem runSteps_insert_noop {σ α ε : Type} (step : σ → α → σ × List ε) (a : α)
    (h : ∀ s, step s a = (s, [])) (s0 : σ) (l₁ l₂ : List α) :
    runSteps step s0 (l₁ ++ a :: l₂) = runSteps step s0 (l₁ ++ l₂) := by
  induction l₁ generalizing s0 with
  | nil =>
    simp only [List.nil_append, runSteps_cons, h]
  | cons b rest ih =>
    simp only [List.cons_append, runSteps_cons, ih]

/-- Same insertion lemma for a pure (effect-free) fold. -/
theorem foldl_insert_noop {σ α : Type} (f : σ → α → σ) (a : α)
    (h : ∀ s, f s a = s) (s0 : σ) (l₁ l₂ : List α) :
    List.foldl f s0 (l₁ ++ a :: l₂) = List.foldl f s0 (l₁ ++ l₂) := by
  simp [List.foldl_append, List.foldl_cons, h]

/-! ## Ready handshake (`waitForDialogReady`, react.tsx 2250-2292)

Events delivered to the handshake's listeners:
  - `msg origin mtype` — a cross-document message received by the
    `window` message listener (`handleMessage`);
  - `nativeClose` — the dialog element's native `close` event, received
    by `handleClose`.  In this system `dialog.close()` is called only
    inside the session `cleanup` (react.tsx 2449-2454), and the escape /
    backdrop triggers (react.tsx 2432-2444) invoke that same `cleanup`,
    so every native close event is preceded by a cleanup invocation;
    `wfReadyTrace` states this property of system traces;
  - `extCleanup` — an invocation of the session `cleanup` by one of the
    `createModalDialog` close triggers (escape key / backdrop click). -/

inductive ReadyEvent : Type
  | msg (origin mtype : String)
  | nativeClose
  | extCleanup
deriving DecidableEq

/-- State of one `waitForDialogReady` run: the `settled` guard flag and
the two listener registrations (`handleMessage` on `window`,
`handleClose` on the dialog). `teardown` mutates all three together. -/
structure ReadyState : Type where
  settled : Bool
  msgListener : Bool
  closeListener : Bool
deriving DecidableEq

/-- Externally observable effects of the handshake listeners. -/
inductive ReadyEffect : Type
  | postInit      -- `PASSKEY_INIT` payload posted into the iframe
  | cleanup       -- session `cleanup()` invoked
  | resolveTrue   -- handshake promise resolved with `true`
  | resolveFalse  -- handshake promise resolved with `false`
deriving DecidableEq

def ReadyState.start : ReadyState := ⟨false, true, true⟩

def ReadyState.done : ReadyState := ⟨true, false, false⟩

/-- `teardown` (react.tsx 2260-2265): no-op when already settled,
otherwise sets the settled flag and removes both listeners. -/
def teardown (s : ReadyState) : ReadyState :=
  if s.settled then s else ReadyState.done

/-- One listener dispatch of the ready handshake.  `handleMessage`
(react.tsx 2267-2281) runs only while the message listener is
registered, discards any message whose origin differs from the dialog
origin, posts `PASSKEY_INIT` and resolves `true` on `PASSKEY_READY`, and
invokes `cleanup` and resolves `false` on `PASSKEY_CLOSE`.
`handleClose` (react.tsx 2284-2287) resolves `false` on the native close
event. -/
def readyStep (dialogOrigin : String) (s : ReadyState) (e : ReadyEvent) :
    ReadyState × List ReadyEffect :=
  match e with
  | .msg o t =>
    if s.msgListener = false then (s, [])
    else if o ≠ dialogOrigin then (s, [])
    else if t = "PASSKEY_READY" then
      (teardown s, [ReadyEffect.postInit, ReadyEffect.resolveTrue])
    else if t = "PASSKEY_CLOSE" then
      (teardown s, [ReadyEffect.cleanup, ReadyEffect.resolveFalse])
    else (s, [])
  | .nativeClose =>
    if s.closeListener = false then (s, [])
    else (teardown s, [ReadyEffect.resolveFalse])
  | .extCleanup => (s, [ReadyEffect.cleanup])

/-- A full run of the ready handshake from its initial state. -/
def runReady (dialogOrigin : String) (evs : List ReadyEvent) :
    ReadyState × List ReadyEffect :=
  runSteps (readyStep dialogOrigin) ReadyState.start evs

/-- An event settles the handshake when processed in the waiting state:
a guarded ready or close message, or the native close event. -/
def isSettling (dialogOrigin : String) : ReadyEvent → Bool
  | .msg o t =>
    decide (o = dialogOrigin ∧ (t = "PASSKEY_READY" ∨ t = "PASSKEY_CLOSE"))
  | .nativeClose => true
  | .extCleanup => false

def firstSettling (dialogOrigin : String) : List ReadyEvent → Option ReadyEvent
  | [] => none
  | e :: rest =>
    if isSettling dialogOrigin e then some e else firstSettling dialogOrigin rest

def resolveCount (effs : List ReadyEffect) : Nat :=
  effs.countP (fun e => e == ReadyEffect.resolveTrue || e == ReadyEffect.resolveFalse)

/-- Well-formed session traces: a native dialog close event only occurs
after the session `cleanup` ran — either via an escape/backdrop trigger
(`extCleanup`) or via the guarded close message handler, both of which
call `cleanup`, whose `dialog.close()` is the only close call site. -/
def wfReadyTrace (dialogOrigin : String) (evs : List ReadyEvent) : Prop :=
  ∀ l₁ l₂, evs = l₁ ++ ReadyEvent.nativeClose :: l₂ →
    (ReadyEvent.extCleanup ∈ l₁ ∨ ReadyEvent.msg dialogOrigin "PASSKEY_CLOSE" ∈ l₁)

theorem resolveCount_append (a b : List ReadyEffect) :
    resolveCount (a ++ b) = resolveCount a + resolveCount b :=
  List.countP_append _ _ _

theorem resolveCount_of_cleanups (effs : List ReadyEffect)
    (h : ∀ x ∈ effs, x = ReadyEffect.cleanup) : resolveCount effs = 0 := by
  rw [resolveCount, List.countP_eq_zero]
  intro x hx
  rw [h x hx]
  decide

theorem readyStep_done (dO : String) (e : ReadyEvent) :
    (readyStep dO ReadyState.done e).1 = ReadyState.done ∧
      ∀ x ∈ (readyStep dO ReadyState.done e).2, x = ReadyEffect.cleanup := by
  cases e <;> simp [readyStep, ReadyState.done]

theorem runReady_done (dO : String) (l : List ReadyEvent) :
    (runSteps (readyStep dO) ReadyState.done l).1 = ReadyState.done ∧
      ∀ x ∈ (runSteps (readyStep dO) ReadyState.done l).2, x = ReadyEffect.cleanup := by
  induction l with
  | nil => simp [runSteps]
  | cons e rest ih =>
    have h := readyStep_done dO e
    rw [runSteps_cons]
    refine ⟨?_, ?_⟩
    · rw [h.1]
      exact ih.1
    · intro x hx
      rcases List.mem_append.mp hx with hx | hx
      · exact h.2 x hx
      · rw [h.1] at hx
        exact ih.2 x hx

theorem readyStep_start_nonsettling (dO : String) (e : ReadyEvent)
    (h : isSettling dO e = false) :
    (readyStep dO ReadyState.start e).1 = ReadyState.start ∧
      ∀ x ∈ (readyStep dO ReadyState.start e).2, x = ReadyEffect.cleanup := by
  cases e with
  | msg o t =>
    simp only [isSettling, decide_eq_false_iff_not, not_and, not_or] at h
    by_cases ho : o = dO
    · have ht := h ho
      simp [readyStep, ReadyState.start, ho, ht.1, ht.2]
    · simp [readyStep, ReadyState.start, ho]
  | nativeClose => simp [isSettling] at h
  | extCleanup => simp [readyStep]

theorem runReady_nonsettling (dO : String) (l : List ReadyEvent)
    (h : ∀ x ∈ l, isSettling dO x = false) :
    (runSteps (readyStep dO) ReadyState.start l).1 = ReadyState.start ∧
      ∀ x ∈ (runSteps (readyStep dO) ReadyState.start l).2, x = ReadyEffect.cleanup := by
  induction l with
  | nil => simp [runSteps]
  | cons e rest ih =>
    have hstep := readyStep_start_nonsettling dO e (h e (List.mem_cons_self e rest))
    have ihr := ih (fun x hx => h x (List.mem_cons_of_mem e hx))
    rw [runSteps_cons]
    refine ⟨?_, ?_⟩
    · rw [hstep.1]
      exact ihr.1
    · intro x hx
      rcases List.mem_append.mp hx with hx | hx
      · exact hstep.2 x hx
      · rw [hstep.1] at hx
        exact ihr.2 x hx

theorem firstSettling_eq_none (dO : String) (evs : List ReadyEvent)
    (h : firstSettling dO evs = none) : ∀ x ∈ evs, isSettling dO x = false := by
  induction evs with
  | nil => simp
  | cons a rest ih =>
    cases hb : isSettling dO a with
    | true => simp [firstSettling, hb] at h
    | false =>
      simp only [firstSettling, hb, Bool.false_eq_true, if_false] at h
      intro x hx
      rcases List.mem_cons.mp hx with rfl | hx
      · exact hb
      · exact ih h x hx

theorem firstSettling_eq_some (dO : String) (evs : List ReadyEvent) (e : ReadyEvent)
    (h : firstSettling dO evs = some e) :
    ∃ l₁ l₂, evs = l₁ ++ e :: l₂ ∧ (∀ x ∈ l₁, isSettling dO x = false) ∧
      isSettling dO e = true := by
  induction evs with
  | nil => simp [firstSettling] at h
  | cons a rest ih =>
    cases hb : isSettling dO a with
    | true =>
      simp only [firstSettling, hb, if_true] at h
      obtain rfl := Option.some.inj h
      exact ⟨[], rest, rfl, by simp, hb⟩
    | false =>
      simp only [firstSettling, hb, Bool.false_eq_true, if_false] at h
      obtain ⟨l₁, l₂, rfl, hl, he⟩ := ih h
      refine ⟨a :: l₁, l₂, rfl, ?_, he⟩
      intro x hx
      rcases List.mem_cons.mp hx with rfl | hx
      · exact hb
      · exact hl x hx

theorem extCleanup_mem_run (dO : String) (s : ReadyState) (l : List ReadyEvent)
    (h : ReadyEvent.extCleanup ∈ l) :
    ReadyEffect.cleanup ∈ (runSteps (readyStep dO) s l).2 := by
  induction l generalizing s with
  | nil => simp at h
  | cons a rest ih =>
    rw [runSteps_cons]
    rcases List.mem_cons.mp h with heq | h'
    · refine List.mem_append.mpr (Or.inl ?_)
      rw [← heq]
      simp [readyStep]
    · exact List.mem_append.mpr (Or.inr (ih _ h'))

theorem teardown_start : teardown ReadyState.start = ReadyState.done := by
  simp [teardown, ReadyState.start]

/-- Case analysis of the dispatch that settles the handshake. -/
theorem readyStep_start_settling (dO : String) (e : ReadyEvent)
    (h : isSettling dO e = true) :
    (e = ReadyEvent.msg dO "PASSKEY_READY" ∧
      readyStep dO ReadyState.start e =
        (ReadyState.done, [ReadyEffect.postInit, ReadyEffect.resolveTrue])) ∨
    (e = ReadyEvent.msg dO "PASSKEY_CLOSE" ∧
      readyStep dO ReadyState.start e =
        (ReadyState.done, [ReadyEffect.cleanup, ReadyEffect.resolveFalse])) ∨
    (e = ReadyEvent.nativeClose ∧
      readyStep dO ReadyState.start e = (ReadyState.done, [ReadyEffect.resolveFalse])) := by
  cases e with
  | msg o t =>
    simp only [isSettling, decide_eq_true_eq] at h
    obtain ⟨rfl, ht⟩ := h
    rcases ht with rfl | rfl
    · exact Or.inl ⟨rfl, by simp [readyStep, ReadyState.start, teardown, ReadyState.done]⟩
    · refine Or.inr (Or.inl ⟨rfl, ?_⟩)
      simp [readyStep, ReadyState.start, teardown, ReadyState.done]
  | nativeClose =>
    refine Or.inr (Or.inr ⟨rfl, ?_⟩)
    simp [readyStep, ReadyState.start, teardown, ReadyState.done]
  | extCleanup => simp [isSettling] at h

/-- Decomposition of a handshake run around its first settling event. -/
theorem runReady_split (dO : String) (evs : List ReadyEvent) (e : ReadyEvent)
    (h : firstSettling dO evs = some e) :
    ∃ l₁ l₂ effs₁ effs₂,
      evs = l₁ ++ e :: l₂ ∧ (∀ x ∈ l₁, isSettling dO x = false) ∧
      (∀ x ∈ effs₁, x = ReadyEffect.cleanup) ∧
      (∀ x ∈ effs₂, x = ReadyEffect.cleanup) ∧
      (readyStep dO ReadyState.start e).1 = ReadyState.done ∧
      (runReady dO evs).1 = ReadyState.done ∧
      (runReady dO evs).2 = effs₁ ++ ((readyStep dO ReadyState.start e).2 ++ effs₂) ∧
      isSettling dO e = true ∧
      (ReadyEvent.extCleanup ∈ l₁ → ReadyEffect.cleanup ∈ effs₁) := by
  obtain ⟨l₁, l₂, rfl, hl, he⟩ := firstSettling_eq_some dO evs e h
  have h₁ := runReady_nonsettling dO l₁ hl
  have hdone : (readyStep dO ReadyState.start e).1 = ReadyState.done := by
    rcases readyStep_start_settling dO e he with ⟨_, hs⟩ | ⟨_, hs⟩ | ⟨_, hs⟩ <;>
      rw [hs]
  have h₂ := runReady_done dO l₂
  refine ⟨l₁, l₂, (runSteps (readyStep dO) ReadyState.start l₁).2,
    (runSteps (readyStep dO) ReadyState.done l₂).2, rfl, hl, h₁.2, h₂.2, hdone, ?_, ?_, he,
    fun hm => extCleanup_mem_run dO ReadyState.start l₁ hm⟩
  · rw [runReady, runSteps_append, h₁.1, runSteps_cons, hdone]
    exact h₂.1
  · rw [runReady, runSteps_append, h₁.1, runSteps_cons, hdone]

/-- C2: in every run of the ready handshake (`waitForDialogReady`,
react.tsx 2250-2292): the `PASSKEY_INIT` payload is posted exactly when
the first settling event of the run is a guarded `PASSKEY_READY` — so it
is never sent before a ready signal and never after a close settled the
run; at most one promise resolution ever happens, and exactly one as
soon as any settling event occurs, with the settled state (listeners
removed) reached in the same transition; a guarded `PASSKEY_CLOSE` while
waiting invokes the session `cleanup` and resolves `false`; a native
close event while waiting resolves `false` and, in well-formed traces,
the session `cleanup` has been invoked during the run. -/
theorem c2_ready_handshake (dO : String) (evs : List ReadyEvent) :
    (ReadyEffect.postInit ∈ (runReady dO evs).2 ↔
      firstSettling dO evs = some (ReadyEvent.msg dO "PASSKEY_READY")) ∧
    resolveCount (runReady dO evs).2 ≤ 1 ∧
    (∀ e, firstSettling dO evs = some e →
      resolveCount (runReady dO evs).2 = 1 ∧ (runReady dO evs).1 = ReadyState.done) ∧
    (firstSettling dO evs = some (ReadyEvent.msg dO "PASSKEY_CLOSE") →
      ReadyEffect.cleanup ∈ (runReady dO evs).2 ∧
      ReadyEffect.resolveFalse ∈ (runReady dO evs).2 ∧
      ReadyEffect.resolveTrue ∉ (runReady dO evs).2) ∧
    (firstSettling dO evs = some ReadyEvent.nativeClose →
      ReadyEffect.resolveFalse ∈ (runReady dO evs).2 ∧
      (wfReadyTrace dO evs → ReadyEffect.cleanup ∈ (runReady dO evs).2)) := by
  cases hfs : firstSettling dO evs with
  | none =>
    have hall := firstSettling_eq_none dO evs hfs
    have hr := runReady_nonsettling dO evs hall
    have hc : ∀ x ∈ (runReady dO evs).2, x = ReadyEffect.cleanup := hr.2
    refine ⟨?_, ?_, ?_, ?_, ?_⟩
    · constructor
      · intro hmem
        exact absurd (hc _ hmem) (by decide)
      · intro h
        simp at h
    · rw [resolveCount_of_cleanups _ hc]
      decide
    · intro e h
      simp at h
    · intro h
      simp at h
    · intro h
      simp at h
  | some e =>
    obtain ⟨l₁, l₂, effs₁, effs₂, heq, hl, h₁c, h₂c, hstep1, hfin, heffs, hsett, hcl⟩ :=
      runReady_split dO evs e hfs
    have hmsg_ne : ∀ (t₁ t₂ : String), t₁ ≠ t₂ →
        some (ReadyEvent.msg dO t₁) ≠ some (ReadyEvent.msg dO t₂) := by
      intro t₁ t₂ hne h'
      exact absurd (ReadyEvent.msg.inj (Option.some.inj h')).2 hne
    rcases readyStep_start_settling dO e hsett with ⟨he, hs⟩ | ⟨he, hs⟩ | ⟨he, hs⟩ <;>
      subst he <;> rw [hs] at heffs <;> simp only [Prod.snd] at heffs
    · -- first settling event: guarded PASSKEY_READY
      refine ⟨?_, ?_, ?_, ?_, ?_⟩
      · refine iff_of_true ?_ rfl
        rw [heffs]
        simp
      · rw [heffs, resolveCount_append, resolveCount_append,
          resolveCount_of_cleanups _ h₁c, resolveCount_of_cleanups _ h₂c]
        decide
      · intro e' h'
        refine ⟨?_, hfin⟩
        rw [heffs, resolveCount_append, resolveCount_append,
          resolveCount_of_cleanups _ h₁c, resolveCount_of_cleanups _ h₂c]
        decide
      · intro h'
        exact absurd h' (hmsg_ne _ _ (by decide))
      · intro h'
        exact ReadyEvent.noConfusion (Option.some.inj h')
    · -- first settling event: guarded PASSKEY_CLOSE
      refine ⟨?_, ?_, ?_, ?_, ?_⟩
      · refine iff_of_false ?_ (hmsg_ne _ _ (by decide))
        intro hmem
        rw [heffs] at hmem
        rcases List.mem_append.mp hmem with hx | hx
        · exact absurd (h₁c _ hx) (by decide)
        rcases List.mem_append.mp hx with hx | hx
        · simp at hx
        · exact absurd (h₂c _ hx) (by decide)
      · rw [heffs, resolveCount_append, resolveCount_append,
          resolveCount_of_cleanups _ h₁c, resolveCount_of_cleanups _ h₂c]
        decide
      · intro e' h'
        refine ⟨?_, hfin⟩
        rw [heffs, resolveCount_append, resolveCount_append,
          resolveCount_of_cleanups _ h₁c, resolveCount_of_cleanups _ h₂c]
        decide
      · intro h'
        refine ⟨?_, ?_, ?_⟩
        · rw [heffs]
          simp
        · rw [heffs]
          simp
        · intro hmem
          rw [heffs] at hmem
          rcases List.mem_append.mp hmem with hx | hx
          · exact absurd (h₁c _ hx) (by decide)
          rcases List.mem_append.mp hx with hx | hx
          · simp at hx
          · exact absurd (h₂c _ hx) (by decide)
      · intro h'
        exact ReadyEvent.noConfusion (Option.some.inj h')
    · -- first settling event: native close
      refine ⟨?_, ?_, ?_, ?_, ?_⟩
      · refine iff_of_false ?_ (fun h' => ReadyEvent.noConfusion (Option.some.inj h'))
        intro hmem
        rw [heffs] at hmem
        rcases List.mem_append.mp hmem with hx | hx
        · exact absurd (h₁c _ hx) (by decide)
        rcases List.mem_append.mp hx with hx | hx
        · simp at hx
        · exact absurd (h₂c _ hx) (by decide)
      · rw [heffs, resolveCount_append, resolveCount_append,
          resolveCount_of_cleanups _ h₁c, resolveCount_of_cleanups _ h₂c]
        decide
      · intro e' h'
        refine ⟨?_, hfin⟩
        rw [heffs, resolveCount_append, resolveCount_append,
          resolveCount_of_cleanups _ h₁c, resolveCount_of_cleanups _ h₂c]
        decide
      · intro h'
        exact ReadyEvent.noConfusion (Option.some.inj h')
      · intro h'
        refine ⟨?_, ?_⟩
        · rw [heffs]
          simp
        · intro hwf
          rcases hwf l₁ l₂ heq with hm | hm
          · rw [heffs]
            exact List.mem_append.mpr (Or.inl (hcl hm))
          · have hset : isSettling dO (ReadyEvent.msg dO "PASSKEY_CLOSE") = true := by
              simp [isSettling]
            rw [hl _ hm] at hset
            simp at hset

/-- Witness for C2: concrete runs exercising the ready path, the
guarded-close path and the well-formed native-close path. -/
theorem c2_ready_handshake_witness :
    ReadyEffect.postInit ∈
      (runReady "https://d.example" [ReadyEvent.msg "https://d.example" "PASSKEY_READY"]).2 ∧
    ReadyEffect.cleanup ∈
      (runReady "https://d.example" [ReadyEvent.msg "https://d.example" "PASSKEY_CLOSE"]).2 ∧
    ReadyEffect.cleanup ∈
      (runReady "https://d.example" [ReadyEvent.extCleanup, ReadyEvent.nativeClose]).2 := by
  refine ⟨?_, ?_, ?_⟩
  · exact (c2_ready_handshake "https://d.example"
      [ReadyEvent.msg "https://d.example" "PASSKEY_READY"]).1.mpr (by decide)
  · exact ((c2_ready_handshake "https://d.example"
      [ReadyEvent.msg "https://d.example" "PASSKEY_CLOSE"]).2.2.2.1 (by decide)).1
  · exact (((c2_ready_handshake "https://d.example"
      [ReadyEvent.extCleanup, ReadyEvent.nativeClose]).2.2.2.2 (by decide)).2
      (by
        intro l₁ l₂ hsplit
        have : l₁ = [ReadyEvent.extCleanup] := by
          cases l₁ with
          | nil => simp at hsplit
          | cons a rest =>
            simp at hsplit
            cases rest with
            | nil => simp [hsplit.1]
            | cons b r2 => simp at hsplit
        rw [this]
        exact Or.inl (by simp)))

/-! ## Signing result waiter with quote refresh
(`waitForSigningWithRefresh`, react.tsx 1383-1473) -/

/-- A cross-document message as read by the signing waiter: origin,
`type` tag, `success` flag and the payload fields it inspects.
`errorCode` models the presence of a structured `message.error`. -/
structure SignMsg : Type where
  origin : String
  mtype : String
  success : Bool
  intentId : Option String
  signature : Option String
  errorCode : Option String
deriving DecidableEq

/-- State of the signing waiter: whether its `window` message listener
is still registered. -/
structure SignState : Type where
  listener : Bool
deriving DecidableEq

inductive SignEffect : Type
  | postRefreshComplete          -- `PASSKEY_REFRESH_COMPLETE` posted to frame
  | postRefreshError             -- `PASSKEY_REFRESH_ERROR` posted to frame
  | cleanup                      -- session `cleanup()` invoked
  | resolveExecuted (intentId : String)   -- dialog-executed fast path
  | resolveSigned (signature : String)    -- legacy signature path
  | resolveFailed (code : String)         -- failure result
  | resolveRejected                       -- `USER_REJECTED` on close
deriving DecidableEq

/-- One dispatch of the signing waiter's `handleMessage`
(react.tsx 1399-1468).  `refreshOk` is the outcome of the `onRefresh`
callback (the re-run of the prepare call) consumed when a
`PASSKEY_REFRESH_QUOTE` request is handled. -/
def signingStep (dialogOrigin : String) (refreshOk : Bool) (s : SignState)
    (m : SignMsg) : SignState × List SignEffect :=
  if s.listener = false then (s, [])
  else if m.origin ≠ dialogOrigin then (s, [])
  else if m.mtype = "PASSKEY_REFRESH_QUOTE" then
    (s, [if refreshOk then SignEffect.postRefreshComplete else SignEffect.postRefreshError])
  else if m.mtype = "PASSKEY_SIGNING_RESULT" then
    (⟨false⟩,
      [if m.success && truthy m.intentId then
        SignEffect.resolveExecuted (m.intentId.getD "")
      else if m.success && m.signature.isSome then
        SignEffect.resolveSigned (m.signature.getD "")
      else
        SignEffect.resolveFailed (m.errorCode.getD "SIGNING_FAILED")])
  else if m.mtype = "PASSKEY_CLOSE" then
    (⟨false⟩, [SignEffect.cleanup, SignEffect.resolveRejected])
  else (s, [])

/-! ## Modal dialog host (`createModalDialog`, react.tsx 2297-2457) -/

/-- A cross-document message as read by the resize/disconnect listener:
`height` and optional `width` for `PASSKEY_RESIZE`. -/
structure ModalMsg : Type where
  origin : String
  mtype : String
  height : Nat
  width : Option Nat
deriving DecidableEq

/-- Externally observable state owned by one `createModalDialog`
session: its two global listeners, the dialog element's open/attached
state, the iframe dimensions and the persisted user record under the
fixed key `1auth-user`. -/
structure ModalState : Type where
  msgListenerOn : Bool
  keydownListenerOn : Bool
  dialogOpen : Bool
  dialogInDocument : Bool
  iframeHeight : Nat
  iframeWidth : Nat
  storedUser : Option String
deriving DecidableEq

/-- One dispatch of the resize/disconnect `handleMessage`
(react.tsx 2417-2428): guarded by the host origin; `PASSKEY_RESIZE`
applies the reported height and, when a truthy width is present, the
width; `PASSKEY_DISCONNECT` removes the stored user record. -/
def modalMsgStep (hostOrigin : String) (s : ModalState) (m : ModalMsg) : ModalState :=
  if s.msgListenerOn = false then s
  else if m.origin ≠ hostOrigin then s
  else if m.mtype = "PASSKEY_RESIZE" then
    let s1 := { s with iframeHeight := m.height }
    match m.width with
    | some w => if w = 0 then s1 else { s1 with iframeWidth := w }
    | none => s1
  else if m.mtype = "PASSKEY_DISCONNECT" then { s with storedUser := none }
  else s

/-- `cleanup` (react.tsx 2449-2454): removes the message and keydown
listeners, closes the dialog and detaches it from the document.  The
returned flag records whether a native `close` event was dispatched —
the DOM fires one only on an open-to-closed transition, so only the
first invocation can emit it; removing an absent listener and removing
a detached node are no-ops and never throw. -/
def modalCleanup (s : ModalState) : ModalState × Bool :=
  ({ s with msgListenerOn := false, keydownListenerOn := false,
            dialogOpen := false, dialogInDocument := false },
    s.dialogOpen)

/-- `n` repeated invocations of `cleanup`. -/
def cleanupIter : Nat → ModalState → ModalState
  | 0, s => s
  | n + 1, s => cleanupIter n (modalCleanup s).1

/-! ## Dialog close waiter (`waitForDialogClose`, react.tsx 1478-1506) -/

structure CloseWaitState : Type where
  msgListenerOn : Bool
  closeListenerOn : Bool
deriving DecidableEq

inductive CloseWaitEffect : Type
  | cleanup
  | resolveDone
deriving DecidableEq

/-- One dispatch of `waitForDialogClose`'s listeners: `handleMessage`
(react.tsx 1485-1493) is origin-guarded and reacts to `PASSKEY_CLOSE`;
`handleClose` (react.tsx 1496-1501) reacts to the native close event. -/
def closeWaitStep (dialogOrigin : String) (s : CloseWaitState) (e : ReadyEvent) :
    CloseWaitState × List CloseWaitEffect :=
  match e with
  | .msg o t =>
    if s.msgListenerOn = false then (s, [])
    else if o ≠ dialogOrigin then (s, [])
    else if t = "PASSKEY_CLOSE" then
      ({ s with msgListenerOn := false },
        [CloseWaitEffect.cleanup, CloseWaitEffect.resolveDone])
    else (s, [])
  | .nativeClose =>
    if s.closeListenerOn = false then (s, [])
    else (⟨false, false⟩, [CloseWaitEffect.cleanup, CloseWaitEffect.resolveDone])
  | .extCleanup => (s, [])

/-! ## Auth, authenticate and connect result waiters
(`waitForModalAuthResponse` react.tsx 2459-2548,
`waitForAuthenticateResponse` 2630-2675,
`waitForConnectResponse` 2677-2721)

Each resolve carries the fields of the triggering message it projects
(`success`, `data?.username`, `error`); the further projected payload
fields (`user`, `accountAddress`, `signature`, `signedHash`,
`autoConnected`, `action`, the popup retry `data?.url`) come verbatim
from the same guarded message and are carried by the message record. -/

/-- A cross-document message as read by the auth result waiter. -/
structure AuthMsg : Type where
  origin : String
  mtype : String
  success : Bool
  username : Option String
  errorCode : Option String
  retryUrl : Option String
deriving DecidableEq

/-- State of the auth waiter: its listener registration and the
`dialogReady` flag that filters stale `PASSKEY_CLOSE` messages. -/
structure AuthWaitState : Type where
  listener : Bool
  dialogReady : Bool
deriving DecidableEq

inductive AuthEffect : Type
  | postInit                 -- `PASSKEY_INIT` `mode:"iframe"` posted on ready
  | cleanup                  -- session `cleanup()` invoked
  | resolveLogin (success : Bool) (username : Option String)
  | resolveRegistered (success : Bool) (username : Option String)
  | retryPopup (url : Option String)   -- popup-mode retry adopted as result
  | resolveCancelled                   -- `USER_CANCELLED` on close
deriving DecidableEq

/-- One dispatch of `waitForModalAuthResponse`'s `handleMessage`
(react.tsx 2470-2545): origin-guarded; `PASSKEY_READY` sets the ready
flag and posts the init message; a `PASSKEY_CLOSE` before readiness is
ignored; login/register results, the popup retry and a close each
remove the listener and resolve once (the retry by adopting the popup
flow's result). -/
def authStep (dialogOrigin : String) (s : AuthWaitState) (m : AuthMsg) :
    AuthWaitState × List AuthEffect :=
  if s.listener = false then (s, [])
  else if m.origin ≠ dialogOrigin then (s, [])
  else if m.mtype = "PASSKEY_READY" then
    ({ s with dialogReady := true }, [AuthEffect.postInit])
  else if s.dialogReady = false ∧ m.mtype = "PASSKEY_CLOSE" then (s, [])
  else if m.mtype = "PASSKEY_LOGIN_RESULT" then
    (⟨false, s.dialogReady⟩,
      [AuthEffect.cleanup, AuthEffect.resolveLogin m.success m.username])
  else if m.mtype = "PASSKEY_REGISTER_RESULT" then
    (⟨false, s.dialogReady⟩,
      [AuthEffect.cleanup, AuthEffect.resolveRegistered m.success m.username])
  else if m.mtype = "PASSKEY_RETRY_POPUP" then
    (⟨false, s.dialogReady⟩, [AuthEffect.cleanup, AuthEffect.retryPopup m.retryUrl])
  else if m.mtype = "PASSKEY_CLOSE" then
    (⟨false, s.dialogReady⟩, [AuthEffect.cleanup, AuthEffect.resolveCancelled])
  else (s, [])

/-- A cross-document message as read by the authenticate / connect
result waiters. -/
structure WaiterMsg : Type where
  origin : String
  mtype : String
  success : Bool
  username : Option String
  errorCode : Option String
deriving DecidableEq

inductive WaiterEffect : Type
  | cleanup
  | resolveResult (success : Bool) (username : Option String)
  | resolveCancelled
deriving DecidableEq

/-- One dispatch of `waitForAuthenticateResponse`'s `handleMessage`
(react.tsx 2637-2673): origin-guarded; `PASSKEY_AUTHENTICATE_RESULT`
removes the listener, invokes `cleanup` and resolves the result;
`PASSKEY_CLOSE` removes the listener, invokes `cleanup` and resolves
`USER_CANCELLED`.  The Bool state is the listener registration. -/
def authenticateStep (dialogOrigin : String) (listenerOn : Bool) (m : WaiterMsg) :
    Bool × List WaiterEffect :=
  if listenerOn = false then (listenerOn, [])
  else if m.origin ≠ dialogOrigin then (listenerOn, [])
  else if m.mtype = "PASSKEY_AUTHENTICATE_RESULT" then
    (false, [WaiterEffect.cleanup, WaiterEffect.resolveResult m.success m.username])
  else if m.mtype = "PASSKEY_CLOSE" then
    (false, [WaiterEffect.cleanup, WaiterEffect.resolveCancelled])
  else (listenerOn, [])

/-- One dispatch of `waitForConnectResponse`'s `handleMessage`
(react.tsx 2684-2719): same structure keyed on
`PASSKEY_CONNECT_RESULT` (close resolves `USER_CANCELLED` with
`action:"cancel"`). -/
def connectStep (dialogOrigin : String) (listenerOn : Bool) (m : WaiterMsg) :
    Bool × List WaiterEffect :=
  if listenerOn = false then (listenerOn, [])
  else if m.origin ≠ dialogOrigin then (listenerOn, [])
  else if m.mtype = "PASSKEY_CONNECT_RESULT" then
    (false, [WaiterEffect.cleanup, WaiterEffect.resolveResult m.success m.username])
  else if m.mtype = "PASSKEY_CLOSE" then
    (false, [WaiterEffect.cleanup, WaiterEffect.resolveCancelled])
  else (listenerOn, [])

/-- C1: every inbound cross-document message whose origin differs from
the dialog origin is discarded silently by every session listener — the
ready handshake (`waitForDialogReady`), the signing result waiter and
its quote-refresh handler (`waitForSigningWithRefresh`), the auth
result waiter (`waitForModalAuthResponse`), the authenticate and
connect result waiters (`waitForAuthenticateResponse`,
`waitForConnectResponse`), the resize/disconnect handler
(`createModalDialog`), and the close waiter (`waitForDialogClose`):
the dispatch changes no state and emits no effect, and a whole run
containing the message has exactly the same final state and effect
trace as the run without it. -/
theorem c1_origin_guard (dO o : String) (hne : o ≠ dO) :
    (∀ (s : ReadyState) (t : String), readyStep dO s (ReadyEvent.msg o t) = (s, [])) ∧
    (∀ (refreshOk : Bool) (s : SignState) (m : SignMsg), m.origin = o →
      signingStep dO refreshOk s m = (s, [])) ∧
    (∀ (s : AuthWaitState) (m : AuthMsg), m.origin = o → authStep dO s m = (s, [])) ∧
    (∀ (b : Bool) (m : WaiterMsg), m.origin = o → authenticateStep dO b m = (b, [])) ∧
    (∀ (b : Bool) (m : WaiterMsg), m.origin = o → connectStep dO b m = (b, [])) ∧
    (∀ (s : ModalState) (m : ModalMsg), m.origin = o → modalMsgStep dO s m = s) ∧
    (∀ (s : CloseWaitState) (t : String),
      closeWaitStep dO s (ReadyEvent.msg o t) = (s, [])) ∧
    (∀ (s0 : ReadyState) (l₁ l₂ : List ReadyEvent) (t : String),
      runSteps (readyStep dO) s0 (l₁ ++ ReadyEvent.msg o t :: l₂) =
        runSteps (readyStep dO) s0 (l₁ ++ l₂)) ∧
    (∀ (refreshOk : Bool) (s0 : SignState) (l₁ l₂ : List SignMsg) (m : SignMsg),
      m.origin = o →
      runSteps (signingStep dO refreshOk) s0 (l₁ ++ m :: l₂) =
        runSteps (signingStep dO refreshOk) s0 (l₁ ++ l₂)) ∧
    (∀ (s0 : AuthWaitState) (l₁ l₂ : List AuthMsg) (m : AuthMsg), m.origin = o →
      runSteps (authStep dO) s0 (l₁ ++ m :: l₂) =
        runSteps (authStep dO) s0 (l₁ ++ l₂)) ∧
    (∀ (b0 : Bool) (l₁ l₂ : List WaiterMsg) (m : WaiterMsg), m.origin = o →
      runSteps (authenticateStep dO) b0 (l₁ ++ m :: l₂) =
        runSteps (authenticateStep dO) b0 (l₁ ++ l₂)) ∧
    (∀ (b0 : Bool) (l₁ l₂ : List WaiterMsg) (m : WaiterMsg), m.origin = o →
      runSteps (connectStep dO) b0 (l₁ ++ m :: l₂) =
        runSteps (connectStep dO) b0 (l₁ ++ l₂)) ∧
    (∀ (s0 : ModalState) (l₁ l₂ : List ModalMsg) (m : ModalMsg), m.origin = o →
      List.foldl (modalMsgStep dO) s0 (l₁ ++ m :: l₂) =
        List.foldl (modalMsgStep dO) s0 (l₁ ++ l₂)) ∧
    (∀ (s0 : CloseWaitState) (l₁ l₂ : List ReadyEvent) (t : String),
      runSteps (closeWaitStep dO) s0 (l₁ ++ ReadyEvent.msg o t :: l₂) =
        runSteps (closeWaitStep dO) s0 (l₁ ++ l₂)) := by
  have hready : ∀ (s : ReadyState) (t : String),
      readyStep dO s (ReadyEvent.msg o t) = (s, []) := by
    intro s t
    by_cases hm : s.msgListener = false <;> simp [readyStep, hm, hne]
  have hsign : ∀ (refreshOk : Bool) (s : SignState) (m : SignMsg), m.origin = o →
      signingStep dO refreshOk s m = (s, []) := by
    intro refreshOk s m hm
    by_cases hl : s.listener = false <;> simp [signingStep, hl, hm, hne]
  have hauth : ∀ (s : AuthWaitState) (m : AuthMsg), m.origin = o →
      authStep dO s m = (s, []) := by
    intro s m hm
    by_cases hl : s.listener = false <;> simp [authStep, hl, hm, hne]
  have hauthc : ∀ (b : Bool) (m : WaiterMsg), m.origin = o →
      authenticateStep dO b m = (b, []) := by
    intro b m hm
    by_cases hl : b = false <;> simp [authenticateStep, hl, hm, hne]
  have hconn : ∀ (b : Bool) (m : WaiterMsg), m.origin = o →
      connectStep dO b m = (b, []) := by
    intro b m hm
    by_cases hl : b = false <;> simp [connectStep, hl, hm, hne]
  have hmodal : ∀ (s : ModalState) (m : ModalMsg), m.origin = o →
      modalMsgStep dO s m = s := by
    intro s m hm
    by_cases hl : s.msgListenerOn = false <;> simp [modalMsgStep, hl, hm, hne]
  have hclose : ∀ (s : CloseWaitState) (t : String),
      closeWaitStep dO s (ReadyEvent.msg o t) = (s, []) := by
    intro s t
    by_cases hl : s.msgListenerOn = false <;> simp [closeWaitStep, hl, hne]
  refine ⟨hready, hsign, hauth, hauthc, hconn, hmodal, hclose,
    ?_, ?_, ?_, ?_, ?_, ?_, ?_⟩
  · intro s0 l₁ l₂ t
    exact runSteps_insert_noop _ _ (fun s => hready s t) s0 l₁ l₂
  · intro refreshOk s0 l₁ l₂ m hm
    exact runSteps_insert_noop _ _ (fun s => hsign refreshOk s m hm) s0 l₁ l₂
  · intro s0 l₁ l₂ m hm
    exact runSteps_insert_noop _ _ (fun s => hauth s m hm) s0 l₁ l₂
  · intro b0 l₁ l₂ m hm
    exact runSteps_insert_noop _ _ (fun b => hauthc b m hm) b0 l₁ l₂
  · intro b0 l₁ l₂ m hm
    exact runSteps_insert_noop _ _ (fun b => hconn b m hm) b0 l₁ l₂
  · intro s0 l₁ l₂ m hm
    exact foldl_insert_noop _ _ (fun s => hmodal s m hm) s0 l₁ l₂
  · intro s0 l₁ l₂ t
    exact runSteps_insert_noop _ _ (fun s => hclose s t) s0 l₁ l₂

/-- Witness for C1: a spoofed-origin message is dropped by each
listener on concrete states. -/
theorem c1_origin_guard_witness :
    readyStep "https://d.example" ReadyState.start
      (ReadyEvent.msg "https://evil.example" "PASSKEY_READY") = (ReadyState.start, []) ∧
    signingStep "https://d.example" true ⟨true⟩
      ⟨"https://evil.example", "PASSKEY_SIGNING_RESULT", true, some "i", none, none⟩ =
      (⟨true⟩, []) ∧
    authStep "https://d.example" ⟨true, true⟩
      ⟨"https://evil.example", "PASSKEY_LOGIN_RESULT", true, some "alice", none, none⟩ =
      (⟨true, true⟩, []) ∧
    authenticateStep "https://d.example" true
      ⟨"https://evil.example", "PASSKEY_AUTHENTICATE_RESULT", true, some "alice", none⟩ =
      (true, []) ∧
    connectStep "https://d.example" true
      ⟨"https://evil.example", "PASSKEY_CONNECT_RESULT", true, some "alice", none⟩ =
      (true, []) ∧
    modalMsgStep "https://d.example" ⟨true, true, true, true, 400, 420, some "alice"⟩
      ⟨"https://evil.example", "PASSKEY_DISCONNECT", 0, none⟩ =
      ⟨true, true, true, true, 400, 420, some "alice"⟩ ∧
    closeWaitStep "https://d.example" ⟨true, true⟩
      (ReadyEvent.msg "https://evil.example" "PASSKEY_CLOSE") = (⟨true, true⟩, []) := by
  have h := c1_origin_guard "https://d.example" "https://evil.example" (by decide)
  exact ⟨h.1 ReadyState.start "PASSKEY_READY",
    h.2.1 true ⟨true⟩ ⟨"https://evil.example", "PASSKEY_SIGNING_RESULT", true, some "i", none, none⟩ rfl,
    h.2.2.1 ⟨true, true⟩
      ⟨"https://evil.example", "PASSKEY_LOGIN_RESULT", true, some "alice", none, none⟩ rfl,
    h.2.2.2.1 true
      ⟨"https://evil.example", "PASSKEY_AUTHENTICATE_RESULT", true, some "alice", none⟩ rfl,
    h.2.2.2.2.1 true
      ⟨"https://evil.example", "PASSKEY_CONNECT_RESULT", true, some "alice", none⟩ rfl,
    h.2.2.2.2.2.1 ⟨true, true, true, true, 400, 420, some "alice"⟩
      ⟨"https://evil.example", "PASSKEY_DISCONNECT", 0, none⟩ rfl,
    h.2.2.2.2.2.2.1 ⟨true, true⟩ "PASSKEY_CLOSE"⟩

/-- C8: `cleanup` of a modal dialog session is idempotent — invoking it
`N > 1` times yields the same externally observable state as invoking
it once (listeners removed, dialog closed and detached, iframe size and
storage untouched), and no invocation after the first dispatches a
native close event, so no waiting promise can be resolved a second time
through the close path, and nothing throws (every sub-operation is a
DOM no-op on an already-cleaned state). -/
theorem c8_cleanup_idempotent (s : ModalState) (n : Nat) (hn : 1 ≤ n) :
    cleanupIter n s = (modalCleanup s).1 ∧
    (modalCleanup (modalCleanup s).1).1 = (modalCleanup s).1 ∧
    (modalCleanup (modalCleanup s).1).2 = false ∧
    (modalCleanup s).1.msgListenerOn = false ∧
    (modalCleanup s).1.keydownListenerOn = false ∧
    (modalCleanup s).1.dialogOpen = false ∧
    (modalCleanup s).1.dialogInDocument = false ∧
    (modalCleanup s).1.iframeHeight = s.iframeHeight ∧
    (modalCleanup s).1.iframeWidth = s.iframeWidth ∧
    (modalCleanup s).1.storedUser = s.storedUser := by
  have hfix : (modalCleanup (modalCleanup s).1).1 = (modalCleanup s).1 := by
    simp [modalCleanup]
  refine ⟨?_, hfix, by simp [modalCleanup], by simp [modalCleanup], by simp [modalCleanup],
    by simp [modalCleanup], by simp [modalCleanup], by simp [modalCleanup],
    by simp [modalCleanup], by simp [modalCleanup]⟩
  have habs : ∀ (m : Nat) (t : ModalState),
      cleanupIter m (modalCleanup t).1 = (modalCleanup t).1 := by
    intro m
    induction m with
    | zero =>
      intro t
      rfl
    | succ k ih =>
      intro t
      show cleanupIter k (modalCleanup (modalCleanup t).1).1 = (modalCleanup t).1
      rw [show (modalCleanup (modalCleanup t).1).1 = (modalCleanup t).1 by
        simp [modalCleanup]]
      exact ih t
  obtain ⟨m, rfl⟩ := Nat.exists_eq_add_of_le hn
  rw [Nat.add_comm 1 m]
  exact habs m s

/-- Witness for C8: three invocations on a fully live session state
equal one invocation. -/
theorem c8_cleanup_idempotent_witness :
    cleanupIter 3 ⟨true, true, true, true, 400, 420, some "alice"⟩ =
      (modalCleanup ⟨true, true, true, true, 400, 420, some "alice"⟩).1 :=
  (c8_cleanup_idempotent ⟨true, true, true, true, 400, 420, some "alice"⟩ 3 (by decide)).1

/-! ## Intent pipeline (`sendIntent`, react.tsx 635-1006)

The network outcomes (prepare / execute responses, status polls, the
hash poll of `waitForTransactionHash`) and the session outcomes
(handshake cancelled, signing result) are inputs to the model; the
model computes the returned `SendIntentResult` and the post-call
`localStorage` contents. -/

/-- `pattern.isPrefixOf text` on character lists (model of the prefix
test underlying `String.prototype.includes`). -/
def charsLead : List Char → List Char → Bool
  | [], _ => true
  | _ :: _, [] => false
  | a :: as, b :: bs => a == b && charsLead as bs

/-- Substring search on character lists. -/
def charsHasSub (pat : List Char) : List Char → Bool
  | [] => charsLead pat []
  | c :: rest => charsLead pat (c :: rest) || charsHasSub pat rest

/-- `s.includes(pat)` — JavaScript substring containment. -/
def strContains (s pat : String) : Bool := charsHasSub pat.toList s.toList

/-- Browser `localStorage` modelled as an association list. -/
def removeKey (k : String) (st : List (String × String)) : List (String × String) :=
  st.filter (fun kv => kv.1 != k)

def lookupKey (k : String) (st : List (String × String)) : Option String :=
  (st.find? (fun kv => kv.1 == k)).map Prod.snd

/-- A parsed OK body of `GET /api/intent/status/{id}`. -/
structure StatusResult : Type where
  status : String
  transactionHash : Option String
deriving DecidableEq

/-- One iteration's fetch outcome in the status poll loop: a thrown
error / non-OK response (retried silently), or an OK body. -/
inductive PollResp : Type
  | err
  | ok (r : StatusResult)
deriving DecidableEq

/-- Parsed body of `POST /api/intent/execute` (or the synthetic
response built in the dialog-executed fast path). -/
structure ExecuteResponse : Type where
  success : Bool
  intentId : String
  status : String
  transactionHash : Option String
  operationId : Option String
  errorCode : Option String
deriving DecidableEq

/-- The result returned by `sendIntent`.  `observedStatus`,
`observedTxHash` and `displayStatus` are specification-only fields
recording the remote status/hash observed when the session closed and
the final display status pushed to the dialog (step 7); the source
keeps them in the local variables `finalStatus` / `finalTxHash` /
`displayStatus`. -/
structure SendIntentResult : Type where
  success : Bool
  intentId : String
  status : String
  transactionHash : Option String
  operationId : Option String
  errorCode : Option String
  errorMessage : String
  observedStatus : String
  observedTxHash : Option String
  displayStatus : String
deriving DecidableEq

/-- A locally generated failure result: `success:false`, empty intent
id, status `"failed"`, no transaction hash. -/
def failResult (code msg : String) : SendIntentResult :=
  ⟨false, "", "failed", none, none, some code, msg, "", none, ""⟩

/-- The `successStatuses` table (react.tsx 937-942 and 961-966); an
unknown `closeOn` key yields no success statuses (the `?? false`). -/
def successStatuses (closeOn : String) : List String :=
  if closeOn = "claimed" then ["claimed", "preconfirmed", "filled", "completed"]
  else if closeOn = "preconfirmed" then ["preconfirmed", "filled", "completed"]
  else if closeOn = "filled" then ["filled", "completed"]
  else if closeOn = "completed" then ["completed"]
  else []

/-- `maxAttempts` (react.tsx 907). -/
def maxPollAttempts : Nat := 120

/-- The status poll loop (react.tsx 911-955) as a function of the
successive fetch outcomes: each OK body overwrites `finalStatus` and
`finalTxHash`; the loop exits on a terminal status (`failed`/`expired`)
or once the status satisfies the `closeOn` threshold; errors and
non-OK responses keep polling.  The per-change `TRANSACTION_STATUS`
notifications are not tracked here (`lastStatus` is kept for fidelity).
Returns the final `(finalStatus, finalTxHash)` pair. -/
def pollLoop (closeOn : String) : Nat → String → String → Option String →
    List PollResp → String × Option String
  | 0, _, st, tx, _ => (st, tx)
  | _ + 1, _, st, tx, [] => (st, tx)
  | fuel + 1, lastStatus, st, tx, PollResp.err :: rest =>
    pollLoop closeOn fuel lastStatus st tx rest
  | fuel + 1, lastStatus, _, _, PollResp.ok r :: rest =>
    let st := r.status
    let tx := r.transactionHash
    let last := if st ≠ lastStatus then st else lastStatus
    if st = "failed" ∨ st = "expired" ∨ (successStatuses closeOn).contains st = true then
      (st, tx)
    else pollLoop closeOn fuel last st tx rest

/-- Steps 6: the `(finalStatus, finalTxHash)` pair observed when the
final status is pushed to the dialog — the poll loop runs only when the
execute response status is `"pending"` (react.tsx 902). -/
def observedOutcome (closeOn : String) (resp : ExecuteResponse)
    (polls : List PollResp) : String × Option String :=
  if resp.status = "pending" then
    pollLoop closeOn maxPollAttempts "pending" resp.status resp.transactionHash polls
  else (resp.status, resp.transactionHash)

/-- Steps 6-8 of `sendIntent` (react.tsx 898-1005): poll, compute
`isSuccessStatus` / `displayStatus` from the `closeOn` threshold
(defaulted to `"preconfirmed"`), then the optional hash wait
(`hashPoll` is the outcome of `waitForTransactionHash`) and the final
return. -/
def sendIntentFinish (closeOnOpt : Option String) (waitForHash : Bool)
    (resp : ExecuteResponse) (polls : List PollResp) (hashPoll : Option String) :
    SendIntentResult :=
  let closeOn := closeOnOpt.getD "preconfirmed"
  let obs := observedOutcome closeOn resp polls
  let isSuccessStatus := (successStatuses closeOn).contains obs.1
  let displayStatus := if isSuccessStatus then "confirmed" else obs.1
  if waitForHash && !(truthy obs.2) then
    match hashPoll with
    | some h =>
      ⟨isSuccessStatus, resp.intentId, "completed", some h, resp.operationId,
        resp.errorCode, "", obs.1, obs.2, displayStatus⟩
    | none =>
      ⟨false, resp.intentId, "failed", obs.2, resp.operationId,
        some "HASH_TIMEOUT", "Timed out waiting for transaction hash",
        obs.1, obs.2, displayStatus⟩
  else
    ⟨isSuccessStatus, resp.intentId, obs.1, obs.2, resp.operationId,
      resp.errorCode, "", obs.1, obs.2, displayStatus⟩

/-- The environment-determined branch a `sendIntent` call takes before
the polling phase.  Constructors map to the source's return paths:
validation failures (react.tsx 648-683), prepare failures (714-745,
non-OK body error text in `errorText`), handshake cancellation
(769-776), signing failure/rejection (818-826), execute failures
(863-895), the dialog-executed fast path (835-841) and a completed
execute call (880). -/
inductive IntentFlow : Type
  | invalidSignedIntent
  | missingUser
  | missingChainOrCalls
  | prepareHttpError (errorText : Option String)
  | prepareNetworkError (msg : String)
  | cancelledBeforeReady
  | signingFailed (code msg : String)
  | executeHttpError (errorText : Option String)
  | executeNetworkError (msg : String)
  | executedByDialog (intentId : String)
  | executed (resp : ExecuteResponse)
deriving DecidableEq

/-- The execute response reaching the polling phase, when one does. -/
def execRespOfFlow : IntentFlow → Option ExecuteResponse
  | .executedByDialog intentId => some ⟨true, intentId, "pending", none, none, none⟩
  | .executed resp => some resp
  | _ => none

/-- `sendIntent` (react.tsx 635-1006) as a function of its environment:
returns the post-call `localStorage` contents and the result.  Only the
prepare-HTTP-error branch touches storage — it removes the fixed key
`"1auth-user"` when the error text contains `"User not found"`
(react.tsx 718-721) and maps the error code accordingly (728). -/
def sendIntentModel (storage : List (String × String)) (closeOnOpt : Option String)
    (waitForHash : Bool) (flow : IntentFlow) (polls : List PollResp)
    (hashPoll : Option String) : List (String × String) × SendIntentResult :=
  match flow with
  | .invalidSignedIntent =>
    (storage, failResult "INVALID_OPTIONS" "Signed intent requires developerId (clientId)")
  | .missingUser =>
    (storage, failResult "INVALID_OPTIONS"
      "Either username, accountAddress, or signedIntent with user identifier is required")
  | .missingChainOrCalls =>
    (storage, failResult "INVALID_OPTIONS"
      "targetChain and calls are required (either directly or via signedIntent)")
  | .prepareHttpError errorText =>
    let errorMessage := jsOr errorText "Failed to prepare intent"
    ((if strContains errorMessage "User not found" then removeKey "1auth-user" storage
      else storage),
      failResult
        (if strContains errorMessage "User not found" then "USER_NOT_FOUND"
          else "PREPARE_FAILED")
        errorMessage)
  | .prepareNetworkError msg => (storage, failResult "NETWORK_ERROR" msg)
  | .cancelledBeforeReady => (storage, failResult "USER_CANCELLED" "User closed the dialog")
  | .signingFailed code msg => (storage, failResult code msg)
  | .executeHttpError errorText =>
    (storage, failResult "EXECUTE_FAILED" (jsOr errorText "Failed to execute intent"))
  | .executeNetworkError msg => (storage, failResult "NETWORK_ERROR" msg)
  | .executedByDialog intentId =>
    (storage, sendIntentFinish closeOnOpt waitForHash
      ⟨true, intentId, "pending", none, none, none⟩ polls hashPoll)
  | .executed resp =>
    (storage, sendIntentFinish closeOnOpt waitForHash resp polls hashPoll)

/-- The pair returned by the poll loop is either its initial pair or
the body of some OK response in the list — statuses and hashes are
never invented locally. -/
theorem pollLoop_source (closeOn : String) :
    ∀ (polls : List PollResp) (fuel : Nat) (lastStatus st : String) (tx : Option String),
    pollLoop closeOn fuel lastStatus st tx polls = (st, tx) ∨
    ∃ r : StatusResult, PollResp.ok r ∈ polls ∧
      pollLoop closeOn fuel lastStatus st tx polls = (r.status, r.transactionHash) := by
  intro polls
  induction polls with
  | nil =>
    intro fuel lastStatus st tx
    cases fuel <;> exact Or.inl rfl
  | cons p rest ih =>
    intro fuel lastStatus st tx
    cases fuel with
    | zero => exact Or.inl rfl
    | succ f =>
      cases p with
      | err =>
        rcases ih f lastStatus st tx with h | ⟨r, hr, h⟩
        · exact Or.inl h
        · exact Or.inr ⟨r, List.mem_cons_of_mem _ hr, h⟩
      | ok r =>
        by_cases hc : r.status = "failed" ∨ r.status = "expired" ∨
            (successStatuses closeOn).contains r.status = true
        · refine Or.inr ⟨r, List.mem_cons_self _ _, ?_⟩
          show (if r.status = "failed" ∨ r.status = "expired" ∨
              (successStatuses closeOn).contains r.status = true then
              (r.status, r.transactionHash)
            else pollLoop closeOn f
              (if r.status ≠ lastStatus then r.status else lastStatus)
              r.status r.transactionHash rest) = (r.status, r.transactionHash)
          rw [if_pos hc]
        · rcases ih f (if r.status ≠ lastStatus then r.status else lastStatus)
              r.status r.transactionHash with h | ⟨r', hr', h⟩
          · refine Or.inr ⟨r, List.mem_cons_self _ _, ?_⟩
            show (if r.status = "failed" ∨ r.status = "expired" ∨
                (successStatuses closeOn).contains r.status = true then
                (r.status, r.transactionHash)
              else pollLoop closeOn f
                (if r.status ≠ lastStatus then r.status else lastStatus)
                r.status r.transactionHash rest) = (r.status, r.transactionHash)
            rw [if_neg hc]
            exact h
          · refine Or.inr ⟨r', List.mem_cons_of_mem _ hr', ?_⟩
            show (if r.status = "failed" ∨ r.status = "expired" ∨
                (successStatuses closeOn).contains r.status = true then
                (r.status, r.transactionHash)
              else pollLoop closeOn f
                (if r.status ≠ lastStatus then r.status else lastStatus)
                r.status r.transactionHash rest) = (r'.status, r'.transactionHash)
            rw [if_neg hc]
            exact h

theorem observedOutcome_source (closeOn : String) (resp : ExecuteResponse)
    (polls : List PollResp) :
    observedOutcome closeOn resp polls = (resp.status, resp.transactionHash) ∨
    ∃ r : StatusResult, PollResp.ok r ∈ polls ∧
      observedOutcome closeOn resp polls = (r.status, r.transactionHash) := by
  unfold observedOutcome
  by_cases hp : resp.status = "pending"
  · rw [if_pos hp]
    have := pollLoop_source closeOn polls maxPollAttempts "pending"
      resp.status resp.transactionHash
    exact this
  · rw [if_neg hp]
    exact Or.inl rfl

theorem sendIntentFinish_plain (closeOnOpt : Option String) (waitForHash : Bool)
    (resp : ExecuteResponse) (polls : List PollResp) (hashPoll : Option String)
    (h : (waitForHash &&
      !(truthy (observedOutcome (closeOnOpt.getD "preconfirmed") resp polls).2)) = false) :
    sendIntentFinish closeOnOpt waitForHash resp polls hashPoll =
      ⟨(successStatuses (closeOnOpt.getD "preconfirmed")).contains
          (observedOutcome (closeOnOpt.getD "preconfirmed") resp polls).1,
        resp.intentId,
        (observedOutcome (closeOnOpt.getD "preconfirmed") resp polls).1,
        (observedOutcome (closeOnOpt.getD "preconfirmed") resp polls).2,
        resp.operationId, resp.errorCode, "",
        (observedOutcome (closeOnOpt.getD "preconfirmed") resp polls).1,
        (observedOutcome (closeOnOpt.getD "preconfirmed") resp polls).2,
        if (successStatuses (closeOnOpt.getD "preconfirmed")).contains
            (observedOutcome (closeOnOpt.getD "preconfirmed") resp polls).1
          then "confirmed"
          else (observedOutcome (closeOnOpt.getD "preconfirmed") resp polls).1⟩ := by
  simp only [sendIntentFinish, h, Bool.false_eq_true, if_false]

theorem sendIntentFinish_hash_found (closeOnOpt : Option String) (waitForHash : Bool)
    (resp : ExecuteResponse) (polls : List PollResp) (hsh : String)
    (h : (waitForHash &&
      !(truthy (observedOutcome (closeOnOpt.getD "preconfirmed") resp polls).2)) = true) :
    sendIntentFinish closeOnOpt waitForHash resp polls (some hsh) =
      ⟨(successStatuses (closeOnOpt.getD "preconfirmed")).contains
          (observedOutcome (closeOnOpt.getD "preconfirmed") resp polls).1,
        resp.intentId, "completed", some hsh,
        resp.operationId, resp.errorCode, "",
        (observedOutcome (closeOnOpt.getD "preconfirmed") resp polls).1,
        (observedOutcome (closeOnOpt.getD "preconfirmed") resp polls).2,
        if (successStatuses (closeOnOpt.getD "preconfirmed")).contains
            (observedOutcome (closeOnOpt.getD "preconfirmed") resp polls).1
          then "confirmed"
          else (observedOutcome (closeOnOpt.getD "preconfirmed") resp polls).1⟩ := by
  simp only [sendIntentFinish, h, if_true]

theorem sendIntentFinish_hash_timeout (closeOnOpt : Option String) (waitForHash : Bool)
    (resp : ExecuteResponse) (polls : List PollResp)
    (h : (waitForHash &&
      !(truthy (observedOutcome (closeOnOpt.getD "preconfirmed") resp polls).2)) = true) :
    sendIntentFinish closeOnOpt waitForHash resp polls none =
      ⟨false, resp.intentId, "failed",
        (observedOutcome (closeOnOpt.getD "preconfirmed") resp polls).2,
        resp.operationId, some "HASH_TIMEOUT", "Timed out waiting for transaction hash",
        (observedOutcome (closeOnOpt.getD "preconfirmed") resp polls).1,
        (observedOutcome (closeOnOpt.getD "preconfirmed") resp polls).2,
        if (successStatuses (closeOnOpt.getD "preconfirmed")).contains
            (observedOutcome (closeOnOpt.getD "preconfirmed") resp polls).1
          then "confirmed"
          else (observedOutcome (closeOnOpt.getD "preconfirmed") resp polls).1⟩ := by
  simp only [sendIntentFinish, h, if_true]

/-- A failed `sendIntentFinish` result carrying a truthy hash can only
have taken that hash, together with the failed status, from the execute
response or from an OK poll body. -/
theorem sendIntentFinish_failed_hash (closeOnOpt : Option String) (waitForHash : Bool)
    (resp : ExecuteResponse) (polls : List PollResp) (hashPoll : Option String)
    (hst : (sendIntentFinish closeOnOpt waitForHash resp polls hashPoll).status = "failed")
    (htx : truthy (sendIntentFinish closeOnOpt waitForHash resp polls hashPoll).transactionHash
      = true) :
    (resp.status = "failed" ∧
      (sendIntentFinish closeOnOpt waitForHash resp polls hashPoll).transactionHash
        = resp.transactionHash) ∨
    ∃ r : StatusResult, PollResp.ok r ∈ polls ∧ r.status = "failed" ∧
      (sendIntentFinish closeOnOpt waitForHash resp polls hashPoll).transactionHash
        = r.transactionHash := by
  by_cases hw : (waitForHash &&
      !(truthy (observedOutcome (closeOnOpt.getD "preconfirmed") resp polls).2)) = true
  · cases hashPoll with
    | some hsh =>
      rw [sendIntentFinish_hash_found closeOnOpt waitForHash resp polls hsh hw] at hst
      have hst' : ("completed" : String) = "failed" := hst
      exact absurd hst' (by decide)
    | none =>
      have h2 := (Bool.and_eq_true _ _).mp hw
      rw [Bool.not_eq_true'] at h2
      have htx' : truthy
          (observedOutcome (closeOnOpt.getD "preconfirmed") resp polls).2 = true := by
        rw [sendIntentFinish_hash_timeout closeOnOpt waitForHash resp polls hw] at htx
        exact htx
      rw [h2.2] at htx'
      exact absurd htx' (by decide)
  · rw [Bool.not_eq_true] at hw
    have heq := sendIntentFinish_plain closeOnOpt waitForHash resp polls hashPoll hw
    have hst' : (observedOutcome (closeOnOpt.getD "preconfirmed") resp polls).1
        = "failed" := by
      rw [heq] at hst
      exact hst
    have htxeq : (sendIntentFinish closeOnOpt waitForHash resp polls hashPoll).transactionHash
        = (observedOutcome (closeOnOpt.getD "preconfirmed") resp polls).2 := by
      rw [heq]
    rcases observedOutcome_source (closeOnOpt.getD "preconfirmed") resp polls with
      hobs | ⟨r, hr, hobs⟩
    · refine Or.inl ⟨?_, ?_⟩
      · rw [hobs] at hst'
        exact hst'
      · rw [htxeq, hobs]
    · refine Or.inr ⟨r, hr, ?_, ?_⟩
      · rw [hobs] at hst'
        exact hst'
      · rw [htxeq, hobs]

/-- C5 counterexample: the status endpoint may report a `failed` status
together with a transaction hash (e.g. the target-chain transaction
reverted after broadcast); `sendIntent` copies both into its result, so
a result with local status `"failed"` and a populated (truthy)
transaction hash is reachable, contradicting the claimed invariant. -/
theorem c5_counterexample :
    (sendIntentModel [] (some "preconfirmed") false
      (IntentFlow.executed ⟨true, "i1", "pending", none, none, none⟩)
      [PollResp.ok ⟨"failed", some "0xabc"⟩] none).2.status = "failed" ∧
    (sendIntentModel [] (some "preconfirmed") false
      (IntentFlow.executed ⟨true, "i1", "pending", none, none, none⟩)
      [PollResp.ok ⟨"failed", some "0xabc"⟩] none).2.transactionHash = some "0xabc" ∧
    truthy (some "0xabc") = true := by
  refine ⟨by decide, by decide, by decide⟩

/-- C5 (amended): a `sendIntent` result with status `"failed"` carries
a truthy transaction hash only when the remote execute response or an
OK status poll itself paired that hash with the failed status; every
locally generated failure — validation, prepare or execute errors,
cancellation, signing rejection, and the `HASH_TIMEOUT` path — carries
no (truthy) transaction hash. -/
theorem c5_failed_hash_source (storage : List (String × String))
    (closeOnOpt : Option String) (waitForHash : Bool) (flow : IntentFlow)
    (polls : List PollResp) (hashPoll : Option String)
    (hst : (sendIntentModel storage closeOnOpt waitForHash flow polls hashPoll).2.status
      = "failed")
    (htx : truthy
      (sendIntentModel storage closeOnOpt waitForHash flow polls hashPoll).2.transactionHash
      = true) :
    ∃ resp, execRespOfFlow flow = some resp ∧
      ((resp.status = "failed" ∧
        (sendIntentModel storage closeOnOpt waitForHash flow polls hashPoll).2.transactionHash
          = resp.transactionHash) ∨
       ∃ r : StatusResult, PollResp.ok r ∈ polls ∧ r.status = "failed" ∧
        (sendIntentModel storage closeOnOpt waitForHash flow polls hashPoll).2.transactionHash
          = r.transactionHash) := by
  cases flow with
  | invalidSignedIntent => simp [sendIntentModel, failResult, truthy] at htx
  | missingUser => simp [sendIntentModel, failResult, truthy] at htx
  | missingChainOrCalls => simp [sendIntentModel, failResult, truthy] at htx
  | prepareHttpError errorText => simp [sendIntentModel, failResult, truthy] at htx
  | prepareNetworkError msg => simp [sendIntentModel, failResult, truthy] at htx
  | cancelledBeforeReady => simp [sendIntentModel, failResult, truthy] at htx
  | signingFailed code msg => simp [sendIntentModel, failResult, truthy] at htx
  | executeHttpError errorText => simp [sendIntentModel, failResult, truthy] at htx
  | executeNetworkError msg => simp [sendIntentModel, failResult, truthy] at htx
  | executedByDialog intentId =>
    exact ⟨⟨true, intentId, "pending", none, none, none⟩, rfl,
      sendIntentFinish_failed_hash closeOnOpt waitForHash _ polls hashPoll hst htx⟩
  | executed resp =>
    exact ⟨resp, rfl,
      sendIntentFinish_failed_hash closeOnOpt waitForHash resp polls hashPoll hst htx⟩

/-- Witness for the amended C5: a failed status with hash reported by a
poll is traced back to that poll body. -/
theorem c5_failed_hash_source_witness :
    ∃ resp, execRespOfFlow
        (IntentFlow.executed ⟨true, "i1", "pending", none, none, none⟩) = some resp ∧
      ((resp.status = "failed" ∧
        (sendIntentModel [] (some "preconfirmed") false
          (IntentFlow.executed ⟨true, "i1", "pending", none, none, none⟩)
          [PollResp.ok ⟨"failed", some "0xabc"⟩] none).2.transactionHash
          = resp.transactionHash) ∨
       ∃ r : StatusResult, PollResp.ok r ∈ [PollResp.ok ⟨"failed", some "0xabc"⟩] ∧
        r.status = "failed" ∧
        (sendIntentModel [] (some "preconfirmed") false
          (IntentFlow.executed ⟨true, "i1", "pending", none, none, none⟩)
          [PollResp.ok ⟨"failed", some "0xabc"⟩] none).2.transactionHash
          = r.transactionHash) :=
  c5_failed_hash_source [] (some "preconfirmed") false
    (IntentFlow.executed ⟨true, "i1", "pending", none, none, none⟩)
    [PollResp.ok ⟨"failed", some "0xabc"⟩] none (by decide) (by decide)

/-- The specification-only fields of a `sendIntentFinish` result always
record the observed outcome, and the returned `success` flag is the
threshold test on the observed status except on the hash-timeout path,
where it is `false` with code `HASH_TIMEOUT`. -/
theorem sendIntentFinish_ghost (closeOnOpt : Option String) (waitForHash : Bool)
    (resp : ExecuteResponse) (polls : List PollResp) (hashPoll : Option String) :
    (sendIntentFinish closeOnOpt waitForHash resp polls hashPoll).observedStatus =
      (observedOutcome (closeOnOpt.getD "preconfirmed") resp polls).1 ∧
    (sendIntentFinish closeOnOpt waitForHash resp polls hashPoll).observedTxHash =
      (observedOutcome (closeOnOpt.getD "preconfirmed") resp polls).2 ∧
    (sendIntentFinish closeOnOpt waitForHash resp polls hashPoll).displayStatus =
      (if (successStatuses (closeOnOpt.getD "preconfirmed")).contains
          (observedOutcome (closeOnOpt.getD "preconfirmed") resp polls).1
        then "confirmed"
        else (observedOutcome (closeOnOpt.getD "preconfirmed") resp polls).1) ∧
    ((sendIntentFinish closeOnOpt waitForHash resp polls hashPoll).success =
        (successStatuses (closeOnOpt.getD "preconfirmed")).contains
          (observedOutcome (closeOnOpt.getD "preconfirmed") resp polls).1 ∨
      ((sendIntentFinish closeOnOpt waitForHash resp polls hashPoll).success = false ∧
        (sendIntentFinish closeOnOpt waitForHash resp polls hashPoll).errorCode =
          some "HASH_TIMEOUT" ∧
        waitForHash = true ∧
        truthy (observedOutcome (closeOnOpt.getD "preconfirmed") resp polls).2 = false ∧
        hashPoll = none)) := by
  by_cases hw : (waitForHash &&
      !(truthy (observedOutcome (closeOnOpt.getD "preconfirmed") resp polls).2)) = true
  · cases hashPoll with
    | some hsh =>
      rw [sendIntentFinish_hash_found closeOnOpt waitForHash resp polls hsh hw]
      exact ⟨rfl, rfl, rfl, Or.inl rfl⟩
    | none =>
      have h2 := (Bool.and_eq_true _ _).mp hw
      rw [Bool.not_eq_true'] at h2
      rw [sendIntentFinish_hash_timeout closeOnOpt waitForHash resp polls hw]
      exact ⟨rfl, rfl, rfl, Or.inr ⟨rfl, rfl, h2.1, h2.2, rfl⟩⟩
  · rw [Bool.not_eq_true] at hw
    rw [sendIntentFinish_plain closeOnOpt waitForHash resp polls hashPoll hw]
    exact ⟨rfl, rfl, rfl, Or.inl rfl⟩

theorem contains_completed {s : String}
    (h : (successStatuses "completed").contains s = true) : s = "completed" := by
  rw [show successStatuses "completed" = ["completed"] from by decide] at h
  simpa using h

/-- Threshold behaviour of the finishing phase, per `closeOn` value. -/
theorem sendIntentFinish_closeOn (waitForHash : Bool) (resp : ExecuteResponse)
    (polls : List PollResp) (hashPoll : Option String) :
    ((sendIntentFinish (some "completed") waitForHash resp polls hashPoll).success = true →
      (sendIntentFinish (some "completed") waitForHash resp polls hashPoll).observedStatus =
        "completed") ∧
    ((successStatuses "claimed").contains
        (sendIntentFinish (some "claimed") waitForHash resp polls hashPoll).observedStatus
        = true →
      (sendIntentFinish (some "claimed") waitForHash resp polls hashPoll).displayStatus =
        "confirmed" ∧
      ((waitForHash = false ∨
        truthy (sendIntentFinish (some "claimed") waitForHash resp polls
          hashPoll).observedTxHash = true ∨
        hashPoll ≠ none) →
        (sendIntentFinish (some "claimed") waitForHash resp polls hashPoll).success = true) ∧
      ((waitForHash = true ∧
        truthy (sendIntentFinish (some "claimed") waitForHash resp polls
          hashPoll).observedTxHash = false ∧
        hashPoll = none) →
        (sendIntentFinish (some "claimed") waitForHash resp polls hashPoll).success = false ∧
        (sendIntentFinish (some "claimed") waitForHash resp polls hashPoll).errorCode =
          some "HASH_TIMEOUT")) := by
  constructor
  · intro hsucc
    obtain ⟨hg1, hg2, hg3, hg4⟩ :=
      sendIntentFinish_ghost (some "completed") waitForHash resp polls hashPoll
    simp only [Option.getD_some] at hg1 hg2 hg3 hg4
    rcases hg4 with hg4 | hg4
    · rw [hg1]
      exact contains_completed (by rw [← hg4]; exact hsucc)
    · rw [hg4.1] at hsucc
      exact absurd hsucc (by decide)
  · intro hsucc
    obtain ⟨hg1, hg2, hg3, hg4⟩ :=
      sendIntentFinish_ghost (some "claimed") waitForHash resp polls hashPoll
    simp only [Option.getD_some] at hg1 hg2 hg3 hg4
    rw [hg1] at hsucc
    refine ⟨by rw [hg3, if_pos hsucc], ?_, ?_⟩
    · intro hdis
      rcases hdis with hwf | htr | hnp
      · have hw : (waitForHash && !(truthy
            (observedOutcome "claimed" resp polls).2)) = false := by
          rw [hwf]
          exact Bool.false_and _
        rw [sendIntentFinish_plain (some "claimed") waitForHash resp polls hashPoll hw]
        exact hsucc
      · rw [hg2] at htr
        have hw : (waitForHash && !(truthy
            (observedOutcome "claimed" resp polls).2)) = false := by
          rw [htr]
          simp
        rw [sendIntentFinish_plain (some "claimed") waitForHash resp polls hashPoll hw]
        exact hsucc
      · cases hashPoll with
        | none => exact absurd rfl hnp
        | some hsh =>
          by_cases hw : (waitForHash && !(truthy
              (observedOutcome "claimed" resp polls).2)) = true
          · rw [sendIntentFinish_hash_found (some "claimed") waitForHash resp polls hsh hw]
            exact hsucc
          · rw [Bool.not_eq_true] at hw
            rw [sendIntentFinish_plain (some "claimed") waitForHash resp polls (some hsh) hw]
            exact hsucc
    · intro hcond
      obtain ⟨hwt, htf, hpn⟩ := hcond
      rw [hg2] at htf
      have hw : (waitForHash && !(truthy
          (observedOutcome "claimed" resp polls).2)) = true := by
        rw [hwt, htf]
        rfl
      rw [hpn]
      rw [sendIntentFinish_hash_timeout (some "claimed") waitForHash resp polls hw]
      exact ⟨rfl, rfl⟩

/-- C3 counterexample: with `closeOn="claimed"`, `waitForHash` set, an
observed `"claimed"` status without a transaction hash, and a hash poll
that times out, the claim's guaranteed `success = true` fails: the run
returns `success = false` with `HASH_TIMEOUT`. -/
theorem c3_counterexample :
    (sendIntentModel [] (some "claimed") true
      (IntentFlow.executed ⟨true, "i1", "pending", none, none, none⟩)
      [PollResp.ok ⟨"claimed", none⟩] none).2.observedStatus = "claimed" ∧
    (successStatuses "claimed").contains "claimed" = true ∧
    (sendIntentModel [] (some "claimed") true
      (IntentFlow.executed ⟨true, "i1", "pending", none, none, none⟩)
      [PollResp.ok ⟨"claimed", none⟩] none).2.success = false ∧
    (sendIntentModel [] (some "claimed") true
      (IntentFlow.executed ⟨true, "i1", "pending", none, none, none⟩)
      [PollResp.ok ⟨"claimed", none⟩] none).2.errorCode = some "HASH_TIMEOUT" := by
  refine ⟨by decide, by decide, by decide, by decide⟩

/-- C3 (amended): for every `sendIntent` run with `closeOn="completed"`
the returned `success` is `true` only if the observed remote status is
exactly `"completed"`; with `closeOn="claimed"` an observed status in
`{claimed, preconfirmed, filled, completed}` makes the final display
status pushed to the dialog `"confirmed"` and yields `success = true`
unless the run ends in a hash-wait timeout (`waitForHash` set, no hash
observed, hash poll empty), in which case `success = false` with code
`HASH_TIMEOUT`; and the poll loop stops at the first response meeting
the threshold — later poll responses cannot change the outcome. -/
theorem c3_close_on_thresholds (storage : List (String × String)) (waitForHash : Bool)
    (flow : IntentFlow) (polls : List PollResp) (hashPoll : Option String) :
    ((sendIntentModel storage (some "completed") waitForHash flow polls hashPoll).2.success
        = true →
      (sendIntentModel storage (some "completed") waitForHash flow polls
        hashPoll).2.observedStatus = "completed") ∧
    ((successStatuses "claimed").contains
        (sendIntentModel storage (some "claimed") waitForHash flow polls
          hashPoll).2.observedStatus = true →
      (sendIntentModel storage (some "claimed") waitForHash flow polls
        hashPoll).2.displayStatus = "confirmed" ∧
      ((waitForHash = false ∨
        truthy (sendIntentModel storage (some "claimed") waitForHash flow polls
          hashPoll).2.observedTxHash = true ∨
        hashPoll ≠ none) →
        (sendIntentModel storage (some "claimed") waitForHash flow polls
          hashPoll).2.success = true) ∧
      ((waitForHash = true ∧
        truthy (sendIntentModel storage (some "claimed") waitForHash flow polls
          hashPoll).2.observedTxHash = false ∧
        hashPoll = none) →
        (sendIntentModel storage (some "claimed") waitForHash flow polls
          hashPoll).2.success = false ∧
        (sendIntentModel storage (some "claimed") waitForHash flow polls
          hashPoll).2.errorCode = some "HASH_TIMEOUT")) ∧
    (∀ (closeOn : String) (fuel : Nat) (lastStatus st : String) (tx : Option String)
      (r : StatusResult) (rest rest' : List PollResp),
      (successStatuses closeOn).contains r.status = true →
      pollLoop closeOn (fuel + 1) lastStatus st tx (PollResp.ok r :: rest) =
        pollLoop closeOn (fuel + 1) lastStatus st tx (PollResp.ok r :: rest')) := by
  refine ⟨?_, ?_, ?_⟩
  · cases flow with
    | executedByDialog intentId =>
      exact (sendIntentFinish_closeOn waitForHash _ polls hashPoll).1
    | executed resp =>
      exact (sendIntentFinish_closeOn waitForHash resp polls hashPoll).1
    | invalidSignedIntent =>
      intro h
      exact Bool.noConfusion h
    | missingUser =>
      intro h
      exact Bool.noConfusion h
    | missingChainOrCalls =>
      intro h
      exact Bool.noConfusion h
    | prepareHttpError errorText =>
      intro h
      exact Bool.noConfusion h
    | prepareNetworkError msg =>
      intro h
      exact Bool.noConfusion h
    | cancelledBeforeReady =>
      intro h
      exact Bool.noConfusion h
    | signingFailed code msg =>
      intro h
      exact Bool.noConfusion h
    | executeHttpError errorText =>
      intro h
      exact Bool.noConfusion h
    | executeNetworkError msg =>
      intro h
      exact Bool.noConfusion h
  · cases flow with
    | executedByDialog intentId =>
      exact (sendIntentFinish_closeOn waitForHash _ polls hashPoll).2
    | executed resp =>
      exact (sendIntentFinish_closeOn waitForHash resp polls hashPoll).2
    | invalidSignedIntent =>
      intro h
      exact Bool.noConfusion h
    | missingUser =>
      intro h
      exact Bool.noConfusion h
    | missingChainOrCalls =>
      intro h
      exact Bool.noConfusion h
    | prepareHttpError errorText =>
      intro h
      exact Bool.noConfusion h
    | prepareNetworkError msg =>
      intro h
      exact Bool.noConfusion h
    | cancelledBeforeReady =>
      intro h
      exact Bool.noConfusion h
    | signingFailed code msg =>
      intro h
      exact Bool.noConfusion h
    | executeHttpError errorText =>
      intro h
      exact Bool.noConfusion h
    | executeNetworkError msg =>
      intro h
      exact Bool.noConfusion h
  · intro closeOn fuel lastStatus st tx r rest rest' hr
    have hc : r.status = "failed" ∨ r.status = "expired" ∨
        (successStatuses closeOn).contains r.status = true := Or.inr (Or.inr hr)
    show (if r.status = "failed" ∨ r.status = "expired" ∨
        (successStatuses closeOn).contains r.status = true then
        (r.status, r.transactionHash)
      else pollLoop closeOn fuel
        (if r.status ≠ lastStatus then r.status else lastStatus)
        r.status r.transactionHash rest) =
      (if r.status = "failed" ∨ r.status = "expired" ∨
        (successStatuses closeOn).contains r.status = true then
        (r.status, r.transactionHash)
      else pollLoop closeOn fuel
        (if r.status ≠ lastStatus then r.status else lastStatus)
        r.status r.transactionHash rest')
    rw [if_pos hc, if_pos hc]

/-- Witness for the amended C3: a `closeOn="completed"` run whose
success implies a completed observation; a `closeOn="claimed"` run with
an observed `claimed` status, no hash wait, succeeding with display
status `"confirmed"`; and the poll loop stopping at a threshold hit. -/
theorem c3_close_on_thresholds_witness :
    (sendIntentModel [] (some "completed") false
      (IntentFlow.executed ⟨true, "i1", "pending", none, none, none⟩)
      [PollResp.ok ⟨"completed", some "0xabc"⟩] none).2.observedStatus = "completed" ∧
    (sendIntentModel [] (some "claimed") false
      (IntentFlow.executed ⟨true, "i1", "pending", none, none, none⟩)
      [PollResp.ok ⟨"claimed", none⟩] none).2.displayStatus = "confirmed" ∧
    (sendIntentModel [] (some "claimed") false
      (IntentFlow.executed ⟨true, "i1", "pending", none, none, none⟩)
      [PollResp.ok ⟨"claimed", none⟩] none).2.success = true ∧
    pollLoop "claimed" 5 "pending" "pending" none
        [PollResp.ok ⟨"claimed", none⟩, PollResp.ok ⟨"failed", none⟩] =
      pollLoop "claimed" 5 "pending" "pending" none [PollResp.ok ⟨"claimed", none⟩] := by
  refine ⟨?_, ?_, ?_, ?_⟩
  · exact (c3_close_on_thresholds [] false
      (IntentFlow.executed ⟨true, "i1", "pending", none, none, none⟩)
      [PollResp.ok ⟨"completed", some "0xabc"⟩] none).1 (by decide)
  · exact ((c3_close_on_thresholds [] false
      (IntentFlow.executed ⟨true, "i1", "pending", none, none, none⟩)
      [PollResp.ok ⟨"claimed", none⟩] none).2.1 (by decide)).1
  · exact (((c3_close_on_thresholds [] false
      (IntentFlow.executed ⟨true, "i1", "pending", none, none, none⟩)
      [PollResp.ok ⟨"claimed", none⟩] none).2.1 (by decide)).2.1 (Or.inl rfl))
  · exact (c3_close_on_thresholds [] false
      (IntentFlow.executed ⟨true, "i1", "pending", none, none, none⟩) [] none).2.2
      "claimed" 4 "pending" "pending" none ⟨"claimed", none⟩
      [PollResp.ok ⟨"failed", none⟩] [] (by decide)

/-- C10: in a `waitForHash` run where no transaction hash was observed
before the session closed and the subsequent hash poll returns one, the
result reports status `"completed"` with that hash while `success` is
still the `closeOn` threshold test on the status observed before the
session closed — in particular `success` is `false` whenever that
observed status had not met the threshold, even though the result has
status `"completed"` and a transaction hash. -/
theorem c10_hash_wait (storage : List (String × String)) (closeOnOpt : Option String)
    (flow : IntentFlow) (polls : List PollResp) (hsh : String) (resp : ExecuteResponse)
    (hflow : execRespOfFlow flow = some resp)
    (hobs : truthy (sendIntentModel storage closeOnOpt true flow polls
      (some hsh)).2.observedTxHash = false) :
    (sendIntentModel storage closeOnOpt true flow polls (some hsh)).2.status =
      "completed" ∧
    (sendIntentModel storage closeOnOpt true flow polls (some hsh)).2.transactionHash =
      some hsh ∧
    (sendIntentModel storage closeOnOpt true flow polls (some hsh)).2.success =
      (successStatuses (closeOnOpt.getD "preconfirmed")).contains
        (sendIntentModel storage closeOnOpt true flow polls
          (some hsh)).2.observedStatus ∧
    ((successStatuses (closeOnOpt.getD "preconfirmed")).contains
        (sendIntentModel storage closeOnOpt true flow polls
          (some hsh)).2.observedStatus = false →
      (sendIntentModel storage closeOnOpt true flow polls (some hsh)).2.success = false) := by
  have key : ∀ (r : ExecuteResponse),
      truthy (sendIntentFinish closeOnOpt true r polls (some hsh)).observedTxHash = false →
      (sendIntentFinish closeOnOpt true r polls (some hsh)).status = "completed" ∧
      (sendIntentFinish closeOnOpt true r polls (some hsh)).transactionHash = some hsh ∧
      (sendIntentFinish closeOnOpt true r polls (some hsh)).success =
        (successStatuses (closeOnOpt.getD "preconfirmed")).contains
          (sendIntentFinish closeOnOpt true r polls (some hsh)).observedStatus ∧
      ((successStatuses (closeOnOpt.getD "preconfirmed")).contains
          (sendIntentFinish closeOnOpt true r polls (some hsh)).observedStatus = false →
        (sendIntentFinish closeOnOpt true r polls (some hsh)).success = false) := by
    intro r hr
    obtain ⟨hg1, hg2, hg3, hg4⟩ := sendIntentFinish_ghost closeOnOpt true r polls (some hsh)
    rw [hg2] at hr
    have hw : (true && !(truthy
        (observedOutcome (closeOnOpt.getD "preconfirmed") r polls).2)) = true := by
      rw [hr]
      rfl
    rw [sendIntentFinish_hash_found closeOnOpt true r polls hsh hw]
    exact ⟨rfl, rfl, rfl, fun hcf => by
      show (successStatuses (closeOnOpt.getD "preconfirmed")).contains
        (observedOutcome (closeOnOpt.getD "preconfirmed") r polls).1 = false
      exact hcf⟩
  cases flow with
  | executedByDialog intentId =>
    obtain rfl := Option.some.inj hflow
    exact key _ hobs
  | executed r =>
    obtain rfl := Option.some.inj hflow
    exact key r hobs
  | invalidSignedIntent => exact Option.noConfusion hflow
  | missingUser => exact Option.noConfusion hflow
  | missingChainOrCalls => exact Option.noConfusion hflow
  | prepareHttpError errorText => exact Option.noConfusion hflow
  | prepareNetworkError msg => exact Option.noConfusion hflow
  | cancelledBeforeReady => exact Option.noConfusion hflow
  | signingFailed code msg => exact Option.noConfusion hflow
  | executeHttpError errorText => exact Option.noConfusion hflow
  | executeNetworkError msg => exact Option.noConfusion hflow

/-- Witness for C10: status below the `preconfirmed` threshold when the
session closed, hash found afterwards — status `"completed"`, hash
present, `success = false`. -/
theorem c10_hash_wait_witness :
    (sendIntentModel [] none true
      (IntentFlow.executed ⟨true, "i1", "pending", none, none, none⟩)
      [] (some "0xabc")).2.status = "completed" ∧
    (sendIntentModel [] none true
      (IntentFlow.executed ⟨true, "i1", "pending", none, none, none⟩)
      [] (some "0xabc")).2.transactionHash = some "0xabc" ∧
    (sendIntentModel [] none true
      (IntentFlow.executed ⟨true, "i1", "pending", none, none, none⟩)
      [] (some "0xabc")).2.success = false := by
  have h := c10_hash_wait [] none
    (IntentFlow.executed ⟨true, "i1", "pending", none, none, none⟩)
    [] "0xabc" ⟨true, "i1", "pending", none, none, none⟩ rfl (by decide)
  exact ⟨h.1, h.2.1, h.2.2.2 (by decide)⟩

/-! ## Stored-user clearing on prepare failure (C7)

`sendIntent` clears the literal key `"1auth-user"` (react.tsx 720); the
provider's storage key is configurable (`options.storageKey ||
"1auth-user"`, provider.ts 48-55), so a record kept under a non-default
key is not touched by this path. -/

theorem lookupKey_removeKey (k k' : String) (st : List (String × String))
    (h : k ≠ k') : lookupKey k (removeKey k' st) = lookupKey k st := by
  induction st with
  | nil => rfl
  | cons kv rest ih =>
    by_cases hk : kv.1 = k'
    · have hkk : (kv.1 == k) = false := by
        rw [hk, beq_eq_false_iff_ne]
        exact fun hke => h hke.symm
      have hfk : (kv.1 != k') = false := by
        rw [hk]
        simp
      simp only [removeKey, List.filter, hfk]
      rw [show lookupKey k (kv :: rest) =
          (if (kv.1 == k) = true then some kv.2 else lookupKey k rest) from by
        simp only [lookupKey, List.find?]
        cases hkv : kv.1 == k <;> simp [hkv]]
      rw [if_neg (by rw [hkk]; exact Bool.false_ne_true)]
      rw [show removeKey k' rest = List.filter (fun kv => kv.1 != k') rest from rfl] at ih
      exact ih
    · have hfk : (kv.1 != k') = true := by
        simp [hk]
      simp only [removeKey, List.filter, hfk]
      rw [show lookupKey k (kv :: List.filter (fun kv => kv.1 != k') rest) =
          (if (kv.1 == k) = true then some kv.2
            else lookupKey k (List.filter (fun kv => kv.1 != k') rest)) from by
        simp only [lookupKey, List.find?]
        cases hkv : kv.1 == k <;> simp [hkv]]
      rw [show lookupKey k (kv :: rest) =
          (if (kv.1 == k) = true then some kv.2 else lookupKey k rest) from by
        simp only [lookupKey, List.find?]
        cases hkv : kv.1 == k <;> simp [hkv]]
      cases hkv : kv.1 == k with
      | true => simp [hkv]
      | false =>
        simp only [hkv, Bool.false_eq_true, if_false]
        exact ih

/-- C7 counterexample: with a caller-configured storage key
(`"my-key"`), a prepare failure whose error contains "User not found"
leaves the persisted record in place — only the fixed default key
`"1auth-user"` is removed — so the claim's "the persisted Stored User
record (kept under the caller-configurable storage key) is removed"
fails, although the call does resolve failed with `USER_NOT_FOUND`. -/
theorem c7_counterexample :
    (sendIntentModel [("my-key", "alice-record")] none false
      (IntentFlow.prepareHttpError (some "User not found")) [] none).1 =
      [("my-key", "alice-record")] ∧
    lookupKey "my-key"
      (sendIntentModel [("my-key", "alice-record")] none false
        (IntentFlow.prepareHttpError (some "User not found")) [] none).1 =
      some "alice-record" ∧
    (sendIntentModel [("my-key", "alice-record")] none false
      (IntentFlow.prepareHttpError (some "User not found")) [] none).2.errorCode =
      some "USER_NOT_FOUND" ∧
    (sendIntentModel [("my-key", "alice-record")] none false
      (IntentFlow.prepareHttpError (some "User not found")) [] none).2.status =
      "failed" := by
  refine ⟨by decide, by decide, by decide, by decide⟩

/-- C7 (amended): on a non-OK prepare response whose error text
contains "User not found", `sendIntent` removes the record under the
fixed default storage key `"1auth-user"` — records under any other
(caller-configured) key are left unchanged — and resolves as a failed
result with code `USER_NOT_FOUND`; on any other non-OK prepare response
storage is left entirely unchanged and the code is `PREPARE_FAILED`. -/
theorem c7_user_not_found (storage : List (String × String))
    (closeOnOpt : Option String) (waitForHash : Bool) (errorText : Option String)
    (polls : List PollResp) (hashPoll : Option String) :
    (strContains (jsOr errorText "Failed to prepare intent") "User not found" = true →
      (sendIntentModel storage closeOnOpt waitForHash
        (IntentFlow.prepareHttpError errorText) polls hashPoll).1 =
        removeKey "1auth-user" storage ∧
      (sendIntentModel storage closeOnOpt waitForHash
        (IntentFlow.prepareHttpError errorText) polls hashPoll).2.errorCode =
        some "USER_NOT_FOUND" ∧
      (sendIntentModel storage closeOnOpt waitForHash
        (IntentFlow.prepareHttpError errorText) polls hashPoll).2.success = false ∧
      (sendIntentModel storage closeOnOpt waitForHash
        (IntentFlow.prepareHttpError errorText) polls hashPoll).2.status = "failed") ∧
    (strContains (jsOr errorText "Failed to prepare intent") "User not found" = false →
      (sendIntentModel storage closeOnOpt waitForHash
        (IntentFlow.prepareHttpError errorText) polls hashPoll).1 = storage ∧
      (sendIntentModel storage closeOnOpt waitForHash
        (IntentFlow.prepareHttpError errorText) polls hashPoll).2.errorCode =
        some "PREPARE_FAILED") ∧
    (∀ k, k ≠ "1auth-user" →
      lookupKey k (sendIntentModel storage closeOnOpt waitForHash
        (IntentFlow.prepareHttpError errorText) polls hashPoll).1 =
        lookupKey k storage) := by
  refine ⟨?_, ?_, ?_⟩
  · intro h
    refine ⟨?_, ?_, rfl, rfl⟩
    · show (if strContains (jsOr errorText "Failed to prepare intent") "User not found"
          then removeKey "1auth-user" storage else storage) = removeKey "1auth-user" storage
      rw [if_pos h]
    · show (failResult
        (if strContains (jsOr errorText "Failed to prepare intent") "User not found"
          then "USER_NOT_FOUND" else "PREPARE_FAILED")
        (jsOr errorText "Failed to prepare intent")).errorCode = some "USER_NOT_FOUND"
      rw [show (failResult
        (if strContains (jsOr errorText "Failed to prepare intent") "User not found"
          then "USER_NOT_FOUND" else "PREPARE_FAILED")
        (jsOr errorText "Failed to prepare intent")).errorCode = some
        (if strContains (jsOr errorText "Failed to prepare intent") "User not found"
          then "USER_NOT_FOUND" else "PREPARE_FAILED") from rfl]
      rw [if_pos h]
  · intro h
    refine ⟨?_, ?_⟩
    · show (if strContains (jsOr errorText "Failed to prepare intent") "User not found"
          then removeKey "1auth-user" storage else storage) = storage
      rw [if_neg (by rw [h]; exact Bool.false_ne_true)]
    · show (failResult
        (if strContains (jsOr errorText "Failed to prepare intent") "User not found"
          then "USER_NOT_FOUND" else "PREPARE_FAILED")
        (jsOr errorText "Failed to prepare intent")).errorCode = some "PREPARE_FAILED"
      rw [show (failResult
        (if strContains (jsOr errorText "Failed to prepare intent") "User not found"
          then "USER_NOT_FOUND" else "PREPARE_FAILED")
        (jsOr errorText "Failed to prepare intent")).errorCode = some
        (if strContains (jsOr errorText "Failed to prepare intent") "User not found"
          then "USER_NOT_FOUND" else "PREPARE_FAILED") from rfl]
      rw [if_neg (by rw [h]; exact Bool.false_ne_true)]
  · intro k hk
    show lookupKey k (if strContains (jsOr errorText "Failed to prepare intent")
        "User not found" then removeKey "1auth-user" storage else storage) =
      lookupKey k storage
    by_cases h : strContains (jsOr errorText "Failed to prepare intent")
        "User not found" = true
    · rw [if_pos h]
      exact lookupKey_removeKey k "1auth-user" storage hk
    · rw [if_neg h]

/-- Witness for the amended C7: a matching error clears the default
key; a non-matching error leaves storage intact with PREPARE_FAILED;
a custom key survives the clearing. -/
theorem c7_user_not_found_witness :
    (sendIntentModel [("1auth-user", "alice"), ("my-key", "alice")] none false
      (IntentFlow.prepareHttpError (some "User not found")) [] none).1 =
      removeKey "1auth-user" [("1auth-user", "alice"), ("my-key", "alice")] ∧
    (sendIntentModel [("1auth-user", "alice")] none false
      (IntentFlow.prepareHttpError (some "boom")) [] none).1 = [("1auth-user", "alice")] ∧
    (sendIntentModel [("1auth-user", "alice")] none false
      (IntentFlow.prepareHttpError (some "boom")) [] none).2.errorCode =
      some "PREPARE_FAILED" ∧
    lookupKey "my-key"
      (sendIntentModel [("1auth-user", "alice"), ("my-key", "alice")] none false
        (IntentFlow.prepareHttpError (some "User not found")) [] none).1 =
      lookupKey "my-key" [("1auth-user", "alice"), ("my-key", "alice")] := by
  refine ⟨?_, ?_, ?_, ?_⟩
  · exact ((c7_user_not_found [("1auth-user", "alice"), ("my-key", "alice")] none false
      (some "User not found") [] none).1 (by decide)).1
  · exact ((c7_user_not_found [("1auth-user", "alice")] none false
      (some "boom") [] none).2.1 (by decide)).1
  · exact ((c7_user_not_found [("1auth-user", "alice")] none false
      (some "boom") [] none).2.1 (by decide)).2
  · exact (c7_user_not_found [("1auth-user", "alice"), ("my-key", "alice")] none false
      (some "User not found") [] none).2.2 "my-key" (by decide)

/-! ## Batch intent pipeline (`sendBatchIntent`, react.tsx 1035-1237) -/

/-- One entry of `message.data.batchResults` as read by the batch
result handler (react.tsx 1180-1187). -/
structure RawBatchItem : Type where
  index : Nat
  operationId : Option String
  intentId : Option String
  status : String
  error : Option String
  success : Option Bool
deriving DecidableEq

/-- One mapped per-intent result (react.tsx 1189-1195). -/
structure BatchItemResult : Type where
  index : Nat
  success : Bool
  intentId : String
  status : String
  errorCode : Option String
deriving DecidableEq

structure SendBatchIntentResult : Type where
  success : Bool
  results : List BatchItemResult
  successCount : Nat
  failureCount : Nat
deriving DecidableEq

/-- The environment-determined branch a `sendBatchIntent` call takes:
missing username / empty intents (react.tsx 1036-1052), prepare
failures (1081-1105), handshake cancelled (1125-1132), signing failed
or no batch results (1208-1217), close message (1221-1230), or a
successful signing message carrying per-index results (1176-1207). -/
inductive BatchOutcome : Type
  | missingUsername
  | missingIntents
  | prepareHttpError (errorText : Option String)
  | prepareNetworkError
  | cancelledBeforeReady
  | signingFailedOrCancelled
  | closed
  | signed (raws : List RawBatchItem)
deriving DecidableEq

/-- The empty batch result returned by every non-signed branch. -/
def emptyBatchResult : SendBatchIntentResult := ⟨false, [], 0, 0⟩

/-- Mapping of one raw batch entry (react.tsx 1189-1195): `success` is
the reported flag, defaulting to `status !== "FAILED"`; `intentId` is
the first truthy of `intentId`/`operationId`, else `""`. -/
def toBatchItemResult (r : RawBatchItem) : BatchItemResult :=
  { index := r.index,
    success := r.success.getD (r.status != "FAILED"),
    intentId := jsOr r.intentId (jsOr r.operationId ""),
    status := if r.status = "FAILED" then "failed" else "pending",
    errorCode := if truthy r.error then some "EXECUTE_FAILED" else none }

/-- `sendBatchIntent` result aggregation (react.tsx 1189-1236). -/
def sendBatchIntentModel : BatchOutcome → SendBatchIntentResult
  | .signed raws =>
    let results := raws.map toBatchItemResult
    let successCount := results.countP (fun r => r.success)
    { success := successCount == results.length,
      results := results,
      successCount := successCount,
      failureCount := results.length - successCount }
  | _ => emptyBatchResult

/-- C6 counterexample: the validation branch (no username) returns
`success = false` with `failureCount = 0` and empty results, so
"success is true iff failureCount equals 0" fails there (and on every
other empty-result branch). -/
theorem c6_counterexample :
    ¬(((sendBatchIntentModel BatchOutcome.missingUsername).success = true) ↔
      (sendBatchIntentModel BatchOutcome.missingUsername).failureCount = 0) := by
  decide

/-- C6 (amended): `successCount + failureCount = results.length` holds
for every `sendBatchIntent` result, and `success = true` implies
`failureCount = 0`; the full equivalence `success ↔ failureCount = 0`
holds on the branch that received per-intent batch results, while the
validation/prepare/cancel/rejection branches return `success = false`
with empty results and both counts `0`. -/
theorem c6_batch_counts (outcome : BatchOutcome) :
    (sendBatchIntentModel outcome).successCount +
      (sendBatchIntentModel outcome).failureCount =
      (sendBatchIntentModel outcome).results.length ∧
    ((sendBatchIntentModel outcome).success = true →
      (sendBatchIntentModel outcome).failureCount = 0) ∧
    (∀ raws, outcome = BatchOutcome.signed raws →
      ((sendBatchIntentModel outcome).success = true ↔
        (sendBatchIntentModel outcome).failureCount = 0)) := by
  cases outcome with
  | signed raws =>
    have hle : (raws.map toBatchItemResult).countP (fun r => r.success) ≤
        (raws.map toBatchItemResult).length := List.countP_le_length _
    refine ⟨?_, ?_, ?_⟩
    · exact Nat.add_sub_cancel' hle
    · intro h
      have he : (raws.map toBatchItemResult).countP (fun r => r.success) =
          (raws.map toBatchItemResult).length := by
        have : ((raws.map toBatchItemResult).countP (fun r => r.success) ==
            (raws.map toBatchItemResult).length) = true := h
        exact eq_of_beq this
      show (raws.map toBatchItemResult).length -
        (raws.map toBatchItemResult).countP (fun r => r.success) = 0
      rw [he]
      exact Nat.sub_self _
    · intro raws' _
      constructor
      · intro h
        have he : (raws.map toBatchItemResult).countP (fun r => r.success) =
            (raws.map toBatchItemResult).length := by
          have : ((raws.map toBatchItemResult).countP (fun r => r.success) ==
              (raws.map toBatchItemResult).length) = true := h
          exact eq_of_beq this
        show (raws.map toBatchItemResult).length -
          (raws.map toBatchItemResult).countP (fun r => r.success) = 0
        rw [he]
        exact Nat.sub_self _
      · intro h
        have hz : (raws.map toBatchItemResult).length -
            (raws.map toBatchItemResult).countP (fun r => r.success) = 0 := h
        have he : (raws.map toBatchItemResult).length ≤
            (raws.map toBatchItemResult).countP (fun r => r.success) :=
          Nat.le_of_sub_eq_zero hz
        show ((raws.map toBatchItemResult).countP (fun r => r.success) ==
          (raws.map toBatchItemResult).length) = true
        rw [Nat.le_antisymm hle he]
        exact beq_self_eq_true _
  | missingUsername => exact ⟨rfl, fun h => Bool.noConfusion h, fun raws h => BatchOutcome.noConfusion h⟩
  | missingIntents => exact ⟨rfl, fun h => Bool.noConfusion h, fun raws h => BatchOutcome.noConfusion h⟩
  | prepareHttpError errorText => exact ⟨rfl, fun h => Bool.noConfusion h, fun raws h => BatchOutcome.noConfusion h⟩
  | prepareNetworkError => exact ⟨rfl, fun h => Bool.noConfusion h, fun raws h => BatchOutcome.noConfusion h⟩
  | cancelledBeforeReady => exact ⟨rfl, fun h => Bool.noConfusion h, fun raws h => BatchOutcome.noConfusion h⟩
  | signingFailedOrCancelled => exact ⟨rfl, fun h => Bool.noConfusion h, fun raws h => BatchOutcome.noConfusion h⟩
  | closed => exact ⟨rfl, fun h => Bool.noConfusion h, fun raws h => BatchOutcome.noConfusion h⟩

/-- Witness for the amended C6: a two-item batch with one failed item
has counts 1/1 summing to 2, and the equivalence holds on the signed
branch. -/
theorem c6_batch_counts_witness :
    (sendBatchIntentModel (BatchOutcome.signed
      [⟨0, some "op-0", none, "PENDING", none, none⟩,
       ⟨1, none, none, "FAILED", some "revert", none⟩])).successCount +
      (sendBatchIntentModel (BatchOutcome.signed
        [⟨0, some "op-0", none, "PENDING", none, none⟩,
         ⟨1, none, none, "FAILED", some "revert", none⟩])).failureCount =
      (sendBatchIntentModel (BatchOutcome.signed
        [⟨0, some "op-0", none, "PENDING", none, none⟩,
         ⟨1, none, none, "FAILED", some "revert", none⟩])).results.length ∧
    ((sendBatchIntentModel (BatchOutcome.signed
      [⟨0, some "op-0", none, "PENDING", none, none⟩])).success = true ↔
      (sendBatchIntentModel (BatchOutcome.signed
        [⟨0, some "op-0", none, "PENDING", none, none⟩])).failureCount = 0) := by
  refine ⟨(c6_batch_counts (BatchOutcome.signed
    [⟨0, some "op-0", none, "PENDING", none, none⟩,
     ⟨1, none, none, "FAILED", some "revert", none⟩])).1, ?_⟩
  exact (c6_batch_counts (BatchOutcome.signed
    [⟨0, some "op-0", none, "PENDING", none, none⟩])).2.2
    [⟨0, some "op-0", none, "PENDING", none, none⟩] rfl

/-! ## Provider adapter (`createOneAuthProvider`, provider.ts)

JavaScript values reaching the provider are modelled by `JsValue`;
numbers and bigints are modelled as non-negative integers (fractional
and negative amounts are out of scope of the claims), so `Math.trunc`
is the identity.  `Number.parseInt`'s partial-prefix parsing and NaN
propagation are modelled as parse failure. -/

inductive JsValue : Type
  | undef
  | nullv
  | num (n : Nat)
  | big (n : Nat)
  | str (s : String)
deriving DecidableEq

def hexDigitVal (c : Char) : Option Nat :=
  if '0' ≤ c ∧ c ≤ '9' then some (c.toNat - '0'.toNat)
  else if 'a' ≤ c ∧ c ≤ 'f' then some (c.toNat - 'a'.toNat + 10)
  else if 'A' ≤ c ∧ c ≤ 'F' then some (c.toNat - 'A'.toNat + 10)
  else none

def parseHexNatCore : List Char → Nat → Option Nat
  | [], acc => some acc
  | c :: rest, acc =>
    match hexDigitVal c with
    | some d => parseHexNatCore rest (acc * 16 + d)
    | none => none

/-- Hex digit string to number; empty digit strings are invalid
(`BigInt("0x")` throws, `parseInt("0x", 16)` is NaN). -/
def parseHexNat : List Char → Option Nat
  | [] => none
  | c :: rest => parseHexNatCore (c :: rest) 0

def decDigitVal (c : Char) : Option Nat :=
  if '0' ≤ c ∧ c ≤ '9' then some (c.toNat - '0'.toNat) else none

def parseDecNatCore : List Char → Nat → Option Nat
  | [], acc => some acc
  | c :: rest, acc =>
    match decDigitVal c with
    | some d => parseDecNatCore rest (acc * 10 + d)
    | none => none

/-- `Number(s)` for the digit strings in scope (`Number("") = 0`;
non-numeric strings are NaN, rejected by the `Number.isFinite` check). -/
def parseDecNat (s : String) : Option Nat := parseDecNatCore s.toList 0

/-- `normalizeValue` (provider.ts 167-182). -/
def normalizeValue : JsValue → Option String
  | .undef => none
  | .nullv => none
  | .big n => some (toString n)
  | .num n => some (toString n)
  | .str s =>
    if s.startsWith "0x" then
      match parseHexNat (s.toList.drop 2) with
      | some n => some (toString n)
      | none => some "0"
    else some s

/-- A raw call object of a `wallet_sendCalls` / `eth_sendTransaction`
payload, with the fields `normalizeCalls` reads. -/
structure RawCall : Type where
  toAddr : String   -- source field name: `to` (reserved token in Lean)
  data : Option String
  value : JsValue
  label : Option String
  sublabel : Option String
deriving DecidableEq

/-- A normalized `IntentCall` (types.ts / provider.ts 184-195). -/
structure IntentCall : Type where
  toAddr : String   -- source field name: `to`
  data : String
  value : String
  label : Option String
  sublabel : Option String
deriving DecidableEq

/-- `normalizeCalls` per call (provider.ts 184-195): `data` defaults to
`"0x"`, `value` to `"0"`. -/
def normalizeCall (c : RawCall) : IntentCall :=
  ⟨c.toAddr, jsOr c.data "0x", jsOr (normalizeValue c.value) "0", c.label, c.sublabel⟩

def normalizeCalls (calls : List RawCall) : List IntentCall :=
  calls.map normalizeCall

/-- `parseChainId` (provider.ts 157-165). -/
def parseChainId : JsValue → Option Nat
  | .num n => some n
  | .str s =>
    if s.startsWith "0x" then parseHexNat (s.toList.drop 2)
    else parseDecNat s
  | _ => none

/-- The persisted Stored User (provider.ts 20-23). -/
structure StoredUser : Type where
  username : String
  address : String
deriving DecidableEq

/-- The options `sendIntent` (provider.ts 257-273) passes to the
Intent Pipeline when no custom intent signer is configured: the direct
(unsigned) body `{username, targetChain, calls}` from
`resolveIntentPayload` (241-247), plus `closeOn`/`waitForHash`. -/
structure DirectIntentArgs : Type where
  username : String
  targetChain : Nat
  calls : List IntentCall
  closeOn : String
  waitForHash : Bool
deriving DecidableEq

/-- The pipeline result fields the provider reads (provider.ts 275-280). -/
structure ClientSendResult : Type where
  success : Bool
  intentId : String
  transactionHash : Option String
  errorMessage : Option String
deriving DecidableEq

/-- The value `sendIntent` (provider.ts 275-281) resolves the request
with: it throws on failure and otherwise returns `result.intentId`
("Return intentId as callsId for EIP-5792 compatibility"). -/
def providerSendIntentReturn (result : ClientSendResult) : Except String String :=
  if result.success = false then
    Except.error (jsOr result.errorMessage "Transaction failed")
  else Except.ok result.intentId

/-- The `wallet_sendCalls` case (provider.ts 350-363): target chain
from the payload override or the current chain, calls normalized, and
the direct pipeline arguments built for the stored user (no custom
signer configured). -/
def walletSendCallsArgs (user : StoredUser) (chainId : Nat)
    (waitForHashOpt : Option Bool) (payloadChainId : JsValue)
    (rawCalls : List RawCall) : Option DirectIntentArgs :=
  let targetChain := (parseChainId payloadChainId).getD chainId
  let calls := normalizeCalls rawCalls
  if calls.length = 0 then none
  else some
    { username := user.username, targetChain := targetChain, calls := calls,
      closeOn := if waitForHashOpt.getD true then "completed" else "preconfirmed",
      waitForHash := waitForHashOpt.getD true }

/-- End-to-end `wallet_sendCalls` with the Intent Pipeline abstracted
as a function from the passed arguments to its result. -/
def walletSendCalls (user : StoredUser) (chainId : Nat)
    (waitForHashOpt : Option Bool) (payloadChainId : JsValue)
    (rawCalls : List RawCall)
    (pipeline : DirectIntentArgs → ClientSendResult) : Except String String :=
  match walletSendCallsArgs user chainId waitForHashOpt payloadChainId rawCalls with
  | none => Except.error "No calls provided"
  | some args => providerSendIntentReturn (pipeline args)

/-- C4: on the claim's scenario the provider passes the Intent
Pipeline exactly the normalized direct body the claim describes — but
the value resolved for the `wallet_sendCalls` request is
`result.intentId`, not the transaction hash: with a pipeline result
`{success:true, intentId:"intent-1", transactionHash:"0xabc"}` the
request resolves with `"intent-1"`, never `"0xabc"`.  The repository's
own test (`test/provider.test.ts`, "wallet_sendCalls forwards calls to
sendIntent") stubs the pipeline with a result containing only
`transactionHash:"0xabc"` and expects `"0xabc"` back, which the code
cannot satisfy. -/
theorem c4_send_calls_returns_intent_id :
    walletSendCallsArgs ⟨"alice", "0xaaaaaaaaaaaaaaaaaaaaaaaaaaaaaaaaaaaaaaaa"⟩ 8453 none
        (JsValue.num 10)
        [⟨"0x1111111111111111111111111111111111111111", none, JsValue.num 2, none, none⟩] =
      some ⟨"alice", 10,
        [⟨"0x1111111111111111111111111111111111111111", "0x", "2", none, none⟩],
        "completed", true⟩ ∧
    walletSendCalls ⟨"alice", "0xaaaaaaaaaaaaaaaaaaaaaaaaaaaaaaaaaaaaaaaa"⟩ 8453 none
        (JsValue.num 10)
        [⟨"0x1111111111111111111111111111111111111111", none, JsValue.num 2, none, none⟩]
        (fun _ => ⟨true, "intent-1", some "0xabc", none⟩) = Except.ok "intent-1" ∧
    Except.ok "intent-1" ≠ (Except.ok "0xabc" : Except String String) ∧
    walletSendCalls ⟨"alice", "0xaaaaaaaaaaaaaaaaaaaaaaaaaaaaaaaaaaaaaaaa"⟩ 8453 none
        (JsValue.num 10)
        [⟨"0x1111111111111111111111111111111111111111", none, JsValue.num 2, none, none⟩]
        (fun _ => ⟨true, "", some "0xabc", none⟩) ≠ Except.ok "0xabc" := by
  refine ⟨by decide, rfl, ?_, ?_⟩
  · intro h
    exact absurd (Except.ok.inj h) (by decide)
  · intro h
    exact absurd (Except.ok.inj h) (by decide)

/-! ## Server-side intent signer (`createCanonicalMessage` /
`signIntent`, src/unnamed/part_000)

`JSON.stringify` of the fixed-shape canonical object is transcribed
as direct string building, with object keys in insertion order and
`undefined`-valued keys (`username`, `accountAddress`) omitted.
`String.prototype.toLowerCase` is modelled by ASCII lowering (the
lowered fields are hex addresses/data).  The Ed25519 `sign` call is an
abstract function of the message. -/

/-- A call as the signer receives it (`IntentCall`, part_000 16-22). -/
structure SICall : Type where
  toAddr : String   -- source field name: `to`
  data : Option String
  value : Option String
  label : Option String
  sublabel : Option String
deriving DecidableEq

/-- `String.prototype.toLowerCase` for the ASCII hex/address strings in
scope. -/
def jsToLower (s : String) : String := String.mk (s.toList.map Char.toLower)

def escChar (c : Char) : String :=
  if c = '"' then "\\\""
  else if c = '\\' then "\\\\"
  else if c = '\n' then "\\n"
  else if c = '\r' then "\\r"
  else if c = '\t' then "\\t"
  else String.singleton c

def jsonEscape (s : String) : String := String.join (s.toList.map escChar)

/-- A JSON string literal. -/
def jstr (s : String) : String := "\"" ++ jsonEscape s ++ "\""

/-- One canonical call object (part_000 60-66): `to` and the defaulted
`data` lower-cased, `value`/`label`/`sublabel` defaulted. -/
def canonicalCall (c : SICall) : String :=
  "\x7b\"to\":" ++ jstr (jsToLower c.toAddr)
    ++ ",\"data\":" ++ jstr (jsToLower (jsOr c.data "0x"))
    ++ ",\"value\":" ++ jstr (jsOr c.value "0")
    ++ ",\"label\":" ++ jstr (jsOr c.label "")
    ++ ",\"sublabel\":" ++ jstr (jsOr c.sublabel "") ++ "\x7d"

def canonicalCalls (cs : List SICall) : String :=
  "[" ++ String.intercalate "," (cs.map canonicalCall) ++ "]"

/-- The `username` key: `JSON.stringify` omits keys whose value is
`undefined`. -/
def usernameField : Option String → String
  | none => ""
  | some u => ",\"username\":" ++ jstr u

/-- The `accountAddress` key, lower-cased; omitted when `undefined`. -/
def accountField : Option String → String
  | none => ""
  | some a => ",\"accountAddress\":" ++ jstr (jsToLower a)

/-- `createCanonicalMessage` (part_000 48-72). -/
def createCanonicalMessage (merchantId : String) (targetChain : Nat)
    (calls : List SICall) (username accountAddress : Option String)
    (nonce : String) (expiresAt : Nat) : String :=
  "\x7b\"merchantId\":" ++ jstr merchantId
    ++ ",\"targetChain\":" ++ toString targetChain
    ++ ",\"calls\":" ++ canonicalCalls calls
    ++ usernameField username
    ++ accountField accountAddress
    ++ ",\"nonce\":" ++ jstr nonce
    ++ ",\"expiresAt\":" ++ toString expiresAt ++ "\x7d"

/-- The signature `signIntent` (part_000 104-128) attaches: the
externally produced Ed25519 signature (`sign`) over the canonical
message built from the developer id, target chain, calls, user
identifier and the freshly generated `nonce` / `expiresAt`. -/
def signIntentSignature (sign : String → String) (developerId : String)
    (targetChain : Nat) (calls : List SICall)
    (username accountAddress : Option String) (nonce : String)
    (expiresAt : Nat) : String :=
  sign (createCanonicalMessage developerId targetChain calls username accountAddress
    nonce expiresAt)

/-- Two signer inputs are call-equivalent when they agree up to letter
casing of `to` / defaulted `data` and up to presence/absence of the
optional fields versus their defaults (`"0x"`, `"0"`, `""`, `""`). -/
def callEquiv (c c' : SICall) : Prop :=
  jsToLower c.toAddr = jsToLower c'.toAddr ∧
  jsToLower (jsOr c.data "0x") = jsToLower (jsOr c'.data "0x") ∧
  jsOr c.value "0" = jsOr c'.value "0" ∧
  jsOr c.label "" = jsOr c'.label "" ∧
  jsOr c.sublabel "" = jsOr c'.sublabel ""

theorem canonicalCall_congr {c c' : SICall} (h : callEquiv c c') :
    canonicalCall c = canonicalCall c' := by
  obtain ⟨h1, h2, h3, h4, h5⟩ := h
  unfold canonicalCall
  rw [h1, h2, h3, h4, h5]

theorem canonicalCalls_congr {cs cs' : List SICall}
    (h : List.Forall₂ callEquiv cs cs') : canonicalCalls cs = canonicalCalls cs' := by
  unfold canonicalCalls
  have hmap : cs.map canonicalCall = cs'.map canonicalCall := by
    induction h with
    | nil => rfl
    | cons hc _ ih => rw [List.map_cons, List.map_cons, canonicalCall_congr hc, ih]
  rw [hmap]

/-- C9: the canonical message — and hence the Ed25519 signature the
signer produces over it — is invariant under letter-casing of call
`to` / `data` fields and of the account address, and under presence
versus default of the optional call fields (`data`/`value`/`label`/
`sublabel` against `"0x"`/`"0"`/`""`/`""`), all other inputs (including
the generated nonce and expiry) being equal. -/
theorem c9_canonical_casing (sign : String → String) (merchantId : String)
    (targetChain : Nat) (calls calls' : List SICall) (username : Option String)
    (acct acct' : Option String) (nonce : String) (expiresAt : Nat)
    (hcalls : List.Forall₂ callEquiv calls calls')
    (hacct : acct.map jsToLower = acct'.map jsToLower) :
    createCanonicalMessage merchantId targetChain calls username acct nonce expiresAt =
      createCanonicalMessage merchantId targetChain calls' username acct' nonce
        expiresAt ∧
    signIntentSignature sign merchantId targetChain calls username acct nonce expiresAt =
      signIntentSignature sign merchantId targetChain calls' username acct' nonce
        expiresAt := by
  have hmsg : createCanonicalMessage merchantId targetChain calls username acct nonce
      expiresAt =
      createCanonicalMessage merchantId targetChain calls' username acct' nonce
        expiresAt := by
    have hacc : accountField acct = accountField acct' := by
      cases acct with
      | none =>
        cases acct' with
        | none => rfl
        | some a' => exact absurd hacct (by simp)
      | some a =>
        cases acct' with
        | none => exact absurd hacct (by simp)
        | some a' =>
          have ha : jsToLower a = jsToLower a' := by
            simpa using hacct
          show ",\"accountAddress\":" ++ jstr (jsToLower a) =
            ",\"accountAddress\":" ++ jstr (jsToLower a')
          rw [ha]
    unfold createCanonicalMessage
    rw [canonicalCalls_congr hcalls, hacc]
  exact ⟨hmsg, congrArg sign hmsg⟩

/-- Witness for C9: mixed-case, defaulted inputs produce the same
canonical message as lower-case, explicit-default inputs. -/
theorem c9_canonical_casing_witness :
    createCanonicalMessage "dev-1" 10
        [⟨"0xAB12", none, none, none, none⟩] (some "alice") (some "0xCD") "n-1" 1234 =
      createCanonicalMessage "dev-1" 10
        [⟨"0xab12", some "0X", some "0", some "", some ""⟩] (some "alice") (some "0xcd")
        "n-1" 1234 ∧
    signIntentSignature (fun m => m) "dev-1" 10
        [⟨"0xAB12", none, none, none, none⟩] (some "alice") (some "0xCD") "n-1" 1234 =
      signIntentSignature (fun m => m) "dev-1" 10
        [⟨"0xab12", some "0X", some "0", some "", some ""⟩] (some "alice") (some "0xcd")
        "n-1" 1234 := by
  have h := c9_canonical_casing (fun m => m) "dev-1" 10
    [⟨"0xAB12", none, none, none, none⟩]
    [⟨"0xab12", some "0X", some "0", some "", some ""⟩]
    (some "alice") (some "0xCD") (some "0xcd") "n-1" 1234
    (List.Forall₂.cons ⟨by decide, by decide, by decide, by decide, by decide⟩
      List.Forall₂.nil)
    (by decide)
  exact ⟨h.1, h.2⟩

end OneAuth
